import Mathlib

/-!
# CoreTime: TimeSpan and DateTime

A shallow embedding of `CoreTime::TimeSpan` (include/TimeSpan.h, src/TimeSpan.cpp)
and of `CoreTime::DateTime` (include/DateTime.h, src/DateTime.cpp).

`time_t` is a 64-bit signed integer.  A `time_t` value is modelled as an `Int`;
every arithmetic operator of the source is modelled by the exact operation
followed by reduction to the two's complement range `[-2^63, 2^63)`.
Division is the C++ one, truncating toward zero (`Int.tdiv`).
-/

namespace CoreTime

/-! ## 64-bit machine arithmetic -/

/-- Reduction of an integer to the signed 64-bit range. -/
def wrap64 (x : Int) : Int :=
  (x + 9223372036854775808) % 18446744073709551616 - 9223372036854775808

/-- Membership in the range of `time_t`. -/
def IsTimeT (x : Int) : Prop :=
  -9223372036854775808 ≤ x ∧ x ≤ 9223372036854775807

instance (x : Int) : Decidable (IsTimeT x) := by
  unfold IsTimeT; infer_instance

/-- Machine `+` on `time_t`. -/
def add64 (a b : Int) : Int := wrap64 (a + b)

/-- Machine binary `-` on `time_t`. -/
def sub64 (a b : Int) : Int := wrap64 (a - b)

/-- Machine `*` on `time_t`. -/
def mul64 (a b : Int) : Int := wrap64 (a * b)

/-- Machine unary `-` on `time_t`. -/
def neg64 (a : Int) : Int := wrap64 (-a)

/-- Machine `/` on `time_t`: the quotient truncated toward zero. -/
def div64 (a b : Int) : Int := wrap64 (Int.tdiv a b)

/-! ## Whole-number `double` arithmetic -/

/-- How many low bits of the natural number `a` do not fit the 53-bit
significand of a binary64 number (`fuel` bounds the count). -/
def excessBits : Nat → Nat → Nat
  | 0, _ => 0
  | fuel + 1, a => if a < 9007199254740992 then 0 else excessBits fuel (a / 2) + 1

/-- The value of the binary64 number nearest to the integer `x`, ties to even:
the result of converting `x` to `double`, and of rounding an exact integer
result of a `double` operation.  Integers up to `2^53` in absolute value are
represented exactly. -/
def roundDouble (x : Int) : Int :=
  let a := x.natAbs
  let e := excessBits a a
  let q := a / 2 ^ e
  let r := a % 2 ^ e
  let q1 := if 2 * r < 2 ^ e then q else if 2 ^ e < 2 * r then q + 1
    else if q % 2 = 0 then q else q + 1
  Int.sign x * ((q1 * 2 ^ e : Nat) : Int)

/-- Conversion of an integer-valued `double` to `time_t`.  Out of range the
conversion is undefined in C++; the value given is the x86-64 one. -/
def doubleToTimeT (x : Int) : Int :=
  if -9223372036854775808 ≤ x ∧ x ≤ 9223372036854775807 then x
  else -9223372036854775808

/-! ## Constants (TimeSpan.h, lines 28-52) -/

/-- Number of ticks in one millisecond. -/
def TicksPerMillisecond : Int := 10000

/-- Number of ticks in one second. -/
def TicksPerSecond : Int := TicksPerMillisecond * 1000

/-- Number of ticks in one minute. -/
def TicksPerMinute : Int := TicksPerSecond * 60

/-- Number of ticks in one hour. -/
def TicksPerHour : Int := TicksPerMinute * 60

/-- Number of ticks in one day. -/
def TicksPerDay : Int := TicksPerHour * 24

/-! ## The data model (TimeSpan.h, lines 316-321) -/

/-- The five stored components of a `TimeSpan`. -/
structure TimeSpan where
  m_days : Int
  m_hours : Int
  m_minutes : Int
  m_seconds : Int
  m_milliseconds : Int
  deriving DecidableEq

namespace TimeSpan

/-- The constructor `TimeSpan(days, hours, minutes, seconds, milliseconds)`. -/
def ctor5 (days hours minutes seconds milliseconds : Int) : TimeSpan :=
  { m_days := days, m_hours := hours, m_minutes := minutes,
    m_seconds := seconds, m_milliseconds := milliseconds }

/-- The constructor `TimeSpan(days, hours, minutes, seconds)`. -/
def ctor4 (days hours minutes seconds : Int) : TimeSpan :=
  ctor5 days hours minutes seconds 0

/-- The constructor `TimeSpan(hours, minutes, seconds)`. -/
def ctor3 (hours minutes seconds : Int) : TimeSpan :=
  ctor4 0 hours minutes seconds

/-- The constructor `TimeSpan(time_t ticks)`. -/
def ofTicks (ticks : Int) : TimeSpan :=
  ctor5 (div64 ticks TicksPerDay) (div64 ticks TicksPerHour)
    (div64 ticks TicksPerMinute) (div64 ticks TicksPerSecond)
    (div64 ticks TicksPerMillisecond)

/-- The getter `Days()`. -/
def Days (d : TimeSpan) : Int := d.m_days

/-- The getter `Hours()`. -/
def Hours (d : TimeSpan) : Int := d.m_hours

/-- The getter `Milliseconds()`. -/
def Milliseconds (d : TimeSpan) : Int := d.m_milliseconds

/-- The getter `Minutes()`. -/
def Minutes (d : TimeSpan) : Int := d.m_minutes

/-- The getter `Seconds()`. -/
def Seconds (d : TimeSpan) : Int := d.m_seconds

/-- The getter `Ticks()`: the weighted sum, evaluated left to right. -/
def Ticks (d : TimeSpan) : Int :=
  add64
    (add64
      (add64
        (add64 (mul64 d.m_days TicksPerDay) (mul64 d.m_hours TicksPerHour))
        (mul64 d.m_minutes TicksPerMinute))
      (mul64 d.m_seconds TicksPerSecond))
    (mul64 d.m_milliseconds TicksPerMillisecond)

/-- The getter `TotalDays()`: the `time_t` quotient, then converted to `double`.
The quotient of a `time_t` by a unit width of at least 10000 is below `2^53` in
absolute value, so the conversion is exact and the result is given as a rational. -/
def TotalDays (d : TimeSpan) : ℚ := ((div64 d.Ticks TicksPerDay : Int) : ℚ)

/-- The getter `TotalHours()`. -/
def TotalHours (d : TimeSpan) : ℚ := ((div64 d.Ticks TicksPerHour : Int) : ℚ)

/-- The getter `TotalMilliseconds()`. -/
def TotalMilliseconds (d : TimeSpan) : ℚ :=
  ((div64 d.Ticks TicksPerMillisecond : Int) : ℚ)

/-- The getter `TotalMinutes()`. -/
def TotalMinutes (d : TimeSpan) : ℚ := ((div64 d.Ticks TicksPerMinute : Int) : ℚ)

/-- The getter `TotalSeconds()`. -/
def TotalSeconds (d : TimeSpan) : ℚ := ((div64 d.Ticks TicksPerSecond : Int) : ℚ)

/-- The operator `lhs < rhs`. -/
def opLt (lhs rhs : TimeSpan) : Bool := decide (lhs.Ticks < rhs.Ticks)

/-- The operator `lhs > rhs`. -/
def opGt (lhs rhs : TimeSpan) : Bool := decide (lhs.Ticks > rhs.Ticks)

/-- The operator `lhs <= rhs`. -/
def opLe (lhs rhs : TimeSpan) : Bool := decide (lhs.Ticks ≤ rhs.Ticks)

/-- The operator `lhs >= rhs`. -/
def opGe (lhs rhs : TimeSpan) : Bool := decide (lhs.Ticks ≥ rhs.Ticks)

/-- The operator `lhs == rhs`. -/
def opEq (lhs rhs : TimeSpan) : Bool := decide (lhs.Ticks = rhs.Ticks)

/-- The operator `lhs != rhs`. -/
def opNe (lhs rhs : TimeSpan) : Bool := decide (lhs.Ticks ≠ rhs.Ticks)

/-- The binary operator `lhs + rhs`. -/
def opAdd (lhs rhs : TimeSpan) : TimeSpan := ofTicks (add64 lhs.Ticks rhs.Ticks)

/-- The binary operator `lhs - rhs`. -/
def opSub (lhs rhs : TimeSpan) : TimeSpan := ofTicks (sub64 lhs.Ticks rhs.Ticks)

/-- The compound operator `lhs += rhs`: the new value of `lhs`. -/
def opAddAssign (lhs rhs : TimeSpan) : TimeSpan :=
  { m_days := add64 lhs.m_days rhs.m_days,
    m_hours := add64 lhs.m_hours rhs.m_hours,
    m_minutes := add64 lhs.m_minutes rhs.m_minutes,
    m_seconds := add64 lhs.m_seconds rhs.m_seconds,
    m_milliseconds := add64 lhs.m_milliseconds rhs.m_milliseconds }

/-- The compound operator `lhs -= rhs`: the new value of `lhs`. -/
def opSubAssign (lhs rhs : TimeSpan) : TimeSpan :=
  { m_days := sub64 lhs.m_days rhs.m_days,
    m_hours := sub64 lhs.m_hours rhs.m_hours,
    m_minutes := sub64 lhs.m_minutes rhs.m_minutes,
    m_seconds := sub64 lhs.m_seconds rhs.m_seconds,
    m_milliseconds := sub64 lhs.m_milliseconds rhs.m_milliseconds }

/-- A store with the object `r` replaced by `v`.  A store maps each reference
to the `TimeSpan` object it denotes; two equal references denote one object. -/
def setObj (σ : Nat → TimeSpan) (r : Nat) (v : TimeSpan) : Nat → TimeSpan :=
  fun i => if i = r then v else σ i

/-- The compound operator `lhs += rhs` on two references into a store, one
statement after the other (TimeSpan.h, lines 374-383): each statement reads the
right operand as the store then holds it. -/
def opAddAssignRef (σ : Nat → TimeSpan) (lhs rhs : Nat) : Nat → TimeSpan :=
  let σ1 := setObj σ lhs { σ lhs with m_days := add64 (σ lhs).m_days (σ rhs).m_days }
  let σ2 := setObj σ1 lhs { σ1 lhs with m_hours := add64 (σ1 lhs).m_hours (σ1 rhs).m_hours }
  let σ3 := setObj σ2 lhs
    { σ2 lhs with m_minutes := add64 (σ2 lhs).m_minutes (σ2 rhs).m_minutes }
  let σ4 := setObj σ3 lhs
    { σ3 lhs with m_seconds := add64 (σ3 lhs).m_seconds (σ3 rhs).m_seconds }
  setObj σ4 lhs
    { σ4 lhs with m_milliseconds := add64 (σ4 lhs).m_milliseconds (σ4 rhs).m_milliseconds }

/-- The compound operator `lhs -= rhs` on two references into a store
(TimeSpan.h, lines 385-394), as `opAddAssignRef`. -/
def opSubAssignRef (σ : Nat → TimeSpan) (lhs rhs : Nat) : Nat → TimeSpan :=
  let σ1 := setObj σ lhs { σ lhs with m_days := sub64 (σ lhs).m_days (σ rhs).m_days }
  let σ2 := setObj σ1 lhs { σ1 lhs with m_hours := sub64 (σ1 lhs).m_hours (σ1 rhs).m_hours }
  let σ3 := setObj σ2 lhs
    { σ2 lhs with m_minutes := sub64 (σ2 lhs).m_minutes (σ2 rhs).m_minutes }
  let σ4 := setObj σ3 lhs
    { σ3 lhs with m_seconds := sub64 (σ3 lhs).m_seconds (σ3 rhs).m_seconds }
  setObj σ4 lhs
    { σ4 lhs with m_milliseconds := sub64 (σ4 lhs).m_milliseconds (σ4 rhs).m_milliseconds }

/-- The method `Add`: a copy of `*this + timeSpan`. -/
def Add (self timeSpan : TimeSpan) : TimeSpan := opAdd self timeSpan

/-- The static method `Compare`. -/
def Compare (lhs rhs : TimeSpan) : Int := sub64 lhs.Ticks rhs.Ticks

/-- The method `CompareTo`. -/
def CompareTo (self rhs : TimeSpan) : Int := Compare self rhs

/-- The method `Duration`. -/
def Duration (self : TimeSpan) : TimeSpan :=
  let ticks := self.Ticks
  ofTicks (if ticks < 0 then neg64 ticks else ticks)

/-- The static method `Equals`. -/
def Equals (lhs rhs : TimeSpan) : Bool := decide (lhs.Ticks = rhs.Ticks)

/-- The static method `FromDays(double days)` at a whole number `days`: the
argument and the unit width are `double` values, their product is a `double`
operation, and the result is converted to `time_t` for the constructor. -/
def FromDays (days : Int) : TimeSpan :=
  ofTicks (doubleToTimeT (roundDouble (roundDouble days * roundDouble TicksPerDay)))

/-- The static method `FromHours(double hours)` at a whole number, as `FromDays`. -/
def FromHours (hours : Int) : TimeSpan :=
  ofTicks (doubleToTimeT (roundDouble (roundDouble hours * roundDouble TicksPerHour)))

/-- The static method `FromMilliseconds(double ms)` at a whole number, as `FromDays`. -/
def FromMilliseconds (ms : Int) : TimeSpan :=
  ofTicks (doubleToTimeT (roundDouble (roundDouble ms * roundDouble TicksPerMillisecond)))

/-- The static method `FromMinutes(double minutes)` at a whole number, as `FromDays`. -/
def FromMinutes (minutes : Int) : TimeSpan :=
  ofTicks (doubleToTimeT (roundDouble (roundDouble minutes * roundDouble TicksPerMinute)))

/-- The static method `FromSeconds(double seconds)` at a whole number, as `FromDays`. -/
def FromSeconds (seconds : Int) : TimeSpan :=
  ofTicks (doubleToTimeT (roundDouble (roundDouble seconds * roundDouble TicksPerSecond)))

/-- The static method `FromTicks`. -/
def FromTicks (ticks : Int) : TimeSpan := ofTicks ticks

/-- The method `Negate`. -/
def Negate (self : TimeSpan) : TimeSpan := ofTicks (neg64 self.Ticks)

/-- The method `Subtract`: a copy of `*this - rhs`. -/
def Subtract (self rhs : TimeSpan) : TimeSpan := opSub self rhs

/-- The static value `MaxValue()` (TimeSpan.cpp, lines 15-19), built from
`std::numeric_limits<time_t>::max()`. -/
def MaxValue : TimeSpan := ofTicks 9223372036854775807

/-- The static value `MinValue()` (TimeSpan.cpp, lines 22-26), built from
`std::numeric_limits<time_t>::min()`. -/
def MinValue : TimeSpan := ofTicks (-9223372036854775808)

/-- The static value `Zero()` (TimeSpan.cpp, lines 29-33). -/
def Zero : TimeSpan := ofTicks 0

end TimeSpan

/-! ## DateTime (include/DateTime.h, src/DateTime.cpp)

The calendar routines `gmtime_r`, `localtime_r` and `mktime` belong to the host
C library, not to the repository: they are a parameter (`Host`) of every
definition that calls them. -/

/-- Reduction of an integer to the signed 32-bit range of `int`. -/
def wrap32 (x : Int) : Int := (x + 2147483648) % 4294967296 - 2147483648

/-- Machine `+` on `int`. -/
def add32 (a b : Int) : Int := wrap32 (a + b)

/-- Machine `%` on `time_t`: the remainder of the truncating division. -/
def mod64 (a b : Int) : Int := wrap64 (Int.tmod a b)

/-- The enumeration `DateTime::DateTimeKind`. -/
inductive DateTimeKind where
  | Local
  | UTC
  | None
  deriving DecidableEq

/-- The type `DateTime::tm_t`, the C `struct tm`; every field is an `int`. -/
structure tm_t where
  tm_sec : Int
  tm_min : Int
  tm_hour : Int
  tm_mday : Int
  tm_mon : Int
  tm_year : Int
  tm_wday : Int
  tm_yday : Int
  tm_isdst : Int
  deriving DecidableEq

/-- The calendar routines of the host C library. -/
structure Host where
  gmtime_r : Int → tm_t
  localtime_r : Int → tm_t
  mktime : tm_t → Int

/-- The helper `convert_to_tm` (DateTime.cpp, lines 13-23). -/
def convert_to_tm (H : Host) (ticks : Int) (kind : DateTimeKind) : tm_t :=
  let seconds := div64 ticks TicksPerSecond
  if kind = DateTimeKind.UTC then H.gmtime_r seconds else H.localtime_r seconds

/-- The fields of a `DateTime` (DateTime.h, lines 273-278). -/
structure DateTime where
  m_ticksSinceUnixEpoch : Int
  m_kind : DateTimeKind
  m_tm : tm_t
  m_tmIsDirty : Bool
  deriving DecidableEq

namespace DateTime

/-- The content of `m_tm` before its first update.  The constructors leave the
member uninitialised; it is not read while `m_tmIsDirty` is set. -/
def tm_unset : tm_t :=
  { tm_sec := 0, tm_min := 0, tm_hour := 0, tm_mday := 0, tm_mon := 0, tm_year := 0,
    tm_wday := 0, tm_yday := 0, tm_isdst := 0 }

/-- The `struct tm` the civil-field constructor passes to `mktime`
(DateTime.cpp, lines 42-52); the `time_t` arguments are narrowed to `int`. -/
def civil_tm (year month day hour minute second : Int) : tm_t :=
  { tm_sec := wrap32 second,
    tm_min := wrap32 minute,
    tm_hour := wrap32 hour,
    tm_mday := wrap32 day,
    tm_mon := wrap32 (sub64 month 1),
    tm_year := wrap32 (sub64 year 1900),
    tm_wday := 0,
    tm_yday := 0,
    tm_isdst := -1 }

/-- The constructor `DateTime(year, month, day, hour, minute, second,
millisecond, kind)` (DateTime.cpp, lines 30-56). -/
def ctorCivil (H : Host) (year month day hour minute second millisecond : Int)
    (kind : DateTimeKind) : DateTime :=
  let _unused := millisecond
  let tm := civil_tm year month day hour minute second
  let seconds := H.mktime tm
  { m_ticksSinceUnixEpoch := mul64 seconds TicksPerSecond,
    m_kind := kind,
    m_tm := tm_unset,
    m_tmIsDirty := true }

/-- The constructor `DateTime(ticks, kind)` (DateTime.cpp, lines 59-67). -/
def ctorTicks (ticks : Int) (kind : DateTimeKind) : DateTime :=
  { m_ticksSinceUnixEpoch := ticks, m_kind := kind, m_tm := tm_unset, m_tmIsDirty := true }

/-- The helper `Update_tm` (DateTime.cpp, lines 392-401): the object after the
call, with its cache filled, and the value returned. -/
def Update_tm (H : Host) (self : DateTime) : DateTime × tm_t :=
  if self.m_tmIsDirty = false then (self, self.m_tm)
  else
    let tm := convert_to_tm H self.m_ticksSinceUnixEpoch self.m_kind
    ({ self with m_tm := tm, m_tmIsDirty := false }, tm)

/-- The object as a calendar getter leaves it. -/
def afterRead (H : Host) (self : DateTime) : DateTime := (Update_tm H self).1

/-- The getter `Day()`. -/
def Day (H : Host) (self : DateTime) : Int := (Update_tm H self).2.tm_mday

/-- The getter `DayOfWeek()`. -/
def DayOfWeek (H : Host) (self : DateTime) : Int := (Update_tm H self).2.tm_wday

/-- The getter `DayOfYear()`. -/
def DayOfYear (H : Host) (self : DateTime) : Int := add32 (Update_tm H self).2.tm_yday 1

/-- The getter `Hour()`. -/
def Hour (H : Host) (self : DateTime) : Int := (Update_tm H self).2.tm_hour

/-- The getter `Kind()`. -/
def Kind (self : DateTime) : DateTimeKind := self.m_kind

/-- The getter `Millisecond()`. -/
def Millisecond (_self : DateTime) : Int := 0

/-- The getter `Minute()`. -/
def Minute (H : Host) (self : DateTime) : Int := (Update_tm H self).2.tm_min

/-- The getter `Month()`. -/
def Month (H : Host) (self : DateTime) : Int := add32 (Update_tm H self).2.tm_mon 1

/-- The getter `Second()`. -/
def Second (H : Host) (self : DateTime) : Int := (Update_tm H self).2.tm_sec

/-- The getter `Ticks()`. -/
def Ticks (self : DateTime) : Int := self.m_ticksSinceUnixEpoch

/-- The getter `Year()`. -/
def Year (H : Host) (self : DateTime) : Int := add32 (Update_tm H self).2.tm_year 1900

/-- The `double` sum `t + p` of a tick count and a product is exact: the two
operands and their sum are values of `double`, and the sum fits `time_t`. -/
def ExactInDouble (t p : Int) : Prop :=
  roundDouble t = t ∧ roundDouble p = p ∧ roundDouble (t + p) = t + p ∧ IsTimeT (t + p)

instance (t p : Int) : Decidable (ExactInDouble t p) := by
  unfold ExactInDouble; infer_instance

/-- The method `AddDays(double days)` at a whole number `days`: the product and
the sum are `double` operations, the result is converted back to `time_t`. -/
def AddDays (self : DateTime) (days : Int) : DateTime :=
  ctorTicks
    (doubleToTimeT (roundDouble
      (roundDouble self.m_ticksSinceUnixEpoch + roundDouble (days * TicksPerDay))))
    self.m_kind

/-- The method `AddHours(double hours)` at a whole number, as `AddDays`. -/
def AddHours (self : DateTime) (hours : Int) : DateTime :=
  ctorTicks
    (doubleToTimeT (roundDouble
      (roundDouble self.m_ticksSinceUnixEpoch + roundDouble (hours * TicksPerHour))))
    self.m_kind

/-- The method `AddMilliseconds(double ms)` at a whole number, as `AddDays`. -/
def AddMilliseconds (self : DateTime) (ms : Int) : DateTime :=
  ctorTicks
    (doubleToTimeT (roundDouble
      (roundDouble self.m_ticksSinceUnixEpoch + roundDouble (ms * TicksPerMillisecond))))
    self.m_kind

/-- The method `AddMinutes(double minutes)` at a whole number, as `AddDays`. -/
def AddMinutes (self : DateTime) (minutes : Int) : DateTime :=
  ctorTicks
    (doubleToTimeT (roundDouble
      (roundDouble self.m_ticksSinceUnixEpoch + roundDouble (minutes * TicksPerMinute))))
    self.m_kind

/-- The method `AddSeconds(double seconds)` at a whole number, as `AddDays`. -/
def AddSeconds (self : DateTime) (seconds : Int) : DateTime :=
  ctorTicks
    (doubleToTimeT (roundDouble
      (roundDouble self.m_ticksSinceUnixEpoch + roundDouble (seconds * TicksPerSecond))))
    self.m_kind

/-- The static method `IsLeapYear` (DateTime.cpp, lines 341-347). -/
def IsLeapYear (year : Int) : Bool :=
  (mod64 year 4 == 0) && (mod64 year 100 == 0 && mod64 year 400 != 0)

/-- The table `k_month_days` of `DaysInMonth`. -/
def k_month_days : List Int := [31, 28, 31, 30, 31, 30, 31, 31, 30, 31, 30, 31]

/-- A read of a C array at a `time_t` index; `none` outside the array. -/
def readAt (arr : List Int) (i : Int) : Option Int :=
  if 0 ≤ i then arr.get? i.toNat else none

/-- The static method `DaysInMonth` (DateTime.cpp, lines 309-329); `none` when
the table is read out of bounds. -/
def DaysInMonth (month year : Int) : Option Int :=
  let month := sub64 month 1
  if month ≠ 2 then readAt k_month_days month
  else (readAt k_month_days 2).map (fun n => add32 n (if IsLeapYear year then 1 else 0))

/-- The arguments of a call of the civil-field constructor. -/
structure CivilArgs where
  year : Int
  month : Int
  day : Int
  hour : Int
  minute : Int
  second : Int
  millisecond : Int
  kind : DateTimeKind
  deriving DecidableEq

/-- The civil fields and kind from which `AddMonths` constructs its result
(DateTime.cpp, lines 234-273, up to the constructor call); `none` when
`DaysInMonth` reads out of bounds. -/
def AddMonthsArgs (H : Host) (self : DateTime) (months : Int) : Option CivilArgs :=
  let curr_day := Day H self
  let self1 := afterRead H self
  let curr_month := Month H self1
  let self2 := afterRead H self1
  let curr_year := Year H self2
  let self3 := afterRead H self2
  let target_month0 := mod64 (add64 curr_month months) 12
  let span_years0 := div64 (add64 curr_month months) 12
  let target_month := if target_month0 = 0 then curr_month else target_month0
  let span_years := if target_month0 = 0 then sub64 span_years0 1 else span_years0
  let target_year := add64 curr_year span_years
  match DaysInMonth target_month target_year with
  | none => none
  | some days_in_target_month =>
    let target_day := if curr_day > days_in_target_month then days_in_target_month else curr_day
    some
      { year := target_year,
        month := target_month,
        day := target_day,
        hour := Hour H self3,
        minute := Minute H (afterRead H self3),
        second := Second H (afterRead H (afterRead H self3)),
        millisecond := Millisecond self3,
        kind := self.m_kind }

/-- The method `AddMonths` (DateTime.cpp, lines 234-273). -/
def AddMonths (H : Host) (self : DateTime) (months : Int) : Option DateTime :=
  (AddMonthsArgs H self months).map fun a =>
    ctorCivil H a.year a.month a.day a.hour a.minute a.second a.millisecond a.kind

/-- The method `AddYears` (DateTime.cpp, lines 291-294). -/
def AddYears (H : Host) (self : DateTime) (years : Int) : Option DateTime :=
  AddMonths H self (mul64 years 12)

/-- The getter `TimeOfDay()` (DateTime.cpp, lines 152-155). -/
def TimeOfDay (self : DateTime) : TimeSpan := TimeSpan.ofTicks self.m_ticksSinceUnixEpoch

/-- The static method `SpecifyKind` (DateTime.cpp, lines 355-358).  The body is
empty: control reaches the end of the function without a `return`, and no
`DateTime` is produced (`none`). -/
def SpecifyKind (_dateTime : DateTime) (_kind : DateTimeKind) : Option DateTime := none

/-- The method `ToLocalTime` (DateTime.cpp, lines 373-376): the body is empty. -/
def ToLocalTime (self : DateTime) : DateTime := self

/-- The method `ToUniversalTime` (DateTime.cpp, lines 379-387): nothing follows
the early return. -/
def ToUniversalTime (self : DateTime) : DateTime :=
  if self.m_kind = DateTimeKind.UTC then self else self

/-- The cache invariant of a `DateTime`: when `m_tmIsDirty` is false, `m_tm` is
the breakdown of the current tick count under the current kind. -/
def CacheCoherent (H : Host) (self : DateTime) : Prop :=
  self.m_tmIsDirty = false →
    self.m_tm = convert_to_tm H self.m_ticksSinceUnixEpoch self.m_kind

/-- The operations on one `DateTime` object that may write its members: a
calendar getter (`Day`, `DayOfWeek`, `DayOfYear`, `Hour`, `Minute`, `Month`,
`Second`, `Year`, each through `Update_tm`), `ToLocalTime` and
`ToUniversalTime`.  The getters `Kind`, `Millisecond` and `Ticks` write nothing. -/
inductive Op where
  | read
  | toLocalTime
  | toUniversalTime
  deriving DecidableEq

/-- The object after one operation. -/
def step (H : Host) (self : DateTime) : Op → DateTime
  | Op.read => afterRead H self
  | Op.toLocalTime => ToLocalTime self
  | Op.toUniversalTime => ToUniversalTime self

/-- The object after a sequence of operations, first to last. -/
def run (H : Host) (self : DateTime) (ops : List Op) : DateTime :=
  ops.foldl (step H) self

end DateTime

/-! ## A reference host

The general statements below hold for every `Host`.  To evaluate the code on
concrete instants a host is needed; this one is used. -/

/-- Modelled from the spec: the calendar conversion collaborator of section 6,
which the repository takes from the host C library.  Days since 1970-01-01 of
the proleptic Gregorian date `y-m-d` (`m` one-based). -/
def days_from_civil (y m d : Int) : Int :=
  let y1 := if m ≤ 2 then y - 1 else y
  let era := y1 / 400
  let yoe := y1 - era * 400
  let mp := if m > 2 then m - 3 else m + 9
  let doy := (153 * mp + 2) / 5 + d - 1
  let doe := yoe * 365 + yoe / 4 - yoe / 100 + doy
  era * 146097 + doe - 719468

/-- Modelled from the spec: the calendar conversion collaborator of section 6.
The proleptic Gregorian date (year, one-based month, day) of the day `z` days
after 1970-01-01. -/
def civil_from_days (z : Int) : Int × Int × Int :=
  let z1 := z + 719468
  let era := z1 / 146097
  let doe := z1 - era * 146097
  let yoe := (doe - doe / 1460 + doe / 36524 - doe / 146096) / 365
  let doy := doe - (365 * yoe + yoe / 4 - yoe / 100)
  let mp := (5 * doy + 2) / 153
  let d := doy - (153 * mp + 2) / 5 + 1
  let m := if mp < 10 then mp + 3 else mp - 9
  let y := yoe + era * 400 + (if m ≤ 2 then 1 else 0)
  (y, m, d)

/-- Modelled from the spec: the calendar conversion collaborator of section 6,
universal-time selector (`gmtime_r`): seconds since the epoch to civil fields,
with year minus 1900, zero-based month, weekday 0 = Sunday and zero-based
year-day. -/
def posix_gmtime (seconds : Int) : tm_t :=
  let days := seconds / 86400
  let rem := seconds % 86400
  let ymd := civil_from_days days
  { tm_sec := rem % 60,
    tm_min := rem / 60 % 60,
    tm_hour := rem / 3600,
    tm_mday := ymd.2.2,
    tm_mon := ymd.2.1 - 1,
    tm_year := ymd.1 - 1900,
    tm_wday := (days + 4) % 7,
    tm_yday := days - days_from_civil ymd.1 1 1,
    tm_isdst := 0 }

/-- Modelled from the spec: the inverse of `posix_gmtime` on civil fields
(`timegm`), out-of-range fields carried over as `mktime` normalises them. -/
def posix_timegm (tm : tm_t) : Int :=
  let y := tm.tm_year + 1900 + tm.tm_mon / 12
  let m := tm.tm_mon % 12 + 1
  (days_from_civil y m 1 + (tm.tm_mday - 1)) * 86400
    + tm.tm_hour * 3600 + tm.tm_min * 60 + tm.tm_sec

/-- Modelled from the spec: a host whose local time is `offset` seconds ahead of
universal time all year round (no daylight saving time): `localtime_r` reads the
clock `offset` seconds later, and `mktime` takes its argument as local time. -/
def posixHost (offset : Int) : Host :=
  { gmtime_r := posix_gmtime,
    localtime_r := fun seconds => posix_gmtime (seconds + offset),
    mktime := fun tm => posix_timegm tm - offset }

/-! ## Facts about the machine arithmetic -/

theorem wrap64_isTimeT (x : Int) : IsTimeT (wrap64 x) := by
  unfold IsTimeT wrap64; omega

theorem wrap64_of_isTimeT {x : Int} (h : IsTimeT x) : wrap64 x = x := by
  unfold IsTimeT at h; unfold wrap64; omega

theorem wrap64_add_left (a b : Int) : wrap64 (wrap64 a + b) = wrap64 (a + b) := by
  unfold wrap64; omega

theorem wrap64_add_right (a b : Int) : wrap64 (a + wrap64 b) = wrap64 (a + b) := by
  unfold wrap64; omega

theorem TicksPerSecond_eq : TicksPerSecond = 10000000 := by decide

theorem TicksPerMinute_eq : TicksPerMinute = 600000000 := by decide

theorem TicksPerHour_eq : TicksPerHour = 36000000000 := by decide

theorem TicksPerDay_eq : TicksPerDay = 864000000000 := by decide

theorem Ticks_eq_wrap (d : TimeSpan) :
    d.Ticks = wrap64 (d.m_days * 864000000000 + d.m_hours * 36000000000
      + d.m_minutes * 600000000 + d.m_seconds * 10000000
      + d.m_milliseconds * 10000) := by
  simp only [TimeSpan.Ticks, add64, mul64, TicksPerDay_eq, TicksPerHour_eq,
    TicksPerMinute_eq, TicksPerSecond_eq, TicksPerMillisecond,
    wrap64_add_left, wrap64_add_right]

theorem Ticks_isTimeT (d : TimeSpan) : IsTimeT d.Ticks := by
  rw [Ticks_eq_wrap]; exact wrap64_isTimeT _

/-- C++ division of integers with a non-negative divisor truncates toward zero. -/
theorem tdiv_trunc (t c : Int) (hc : 0 ≤ c) :
    Int.tdiv t c = if 0 ≤ t then t / c else -((-t) / c) := by
  split
  · exact Int.tdiv_eq_ediv ‹_› hc
  · have h : t = -(-t) := by omega
    conv_lhs => rw [h]
    rw [Int.neg_tdiv, Int.tdiv_eq_ediv (by omega) hc]

/-- Dividing a `time_t` by a positive constant never leaves the range. -/
theorem div64_of_isTimeT {t c : Int} (ht : IsTimeT t) (hc : 1 ≤ c) :
    div64 t c = Int.tdiv t c := by
  unfold div64
  apply wrap64_of_isTimeT
  rw [tdiv_trunc t c (by omega)]
  unfold IsTimeT at *
  split
  · constructor
    · have := Int.ediv_nonneg (a := t) (b := c) (by omega) (by omega); omega
    · have := Int.ediv_le_self c (a := t) (by omega); omega
  · constructor
    · have := Int.ediv_le_self c (a := -t) (by omega); omega
    · have := Int.ediv_nonneg (a := -t) (b := c) (by omega) (by omega); omega

theorem div64_trunc {t c : Int} (ht : IsTimeT t) (hc : 1 ≤ c) :
    div64 t c = if 0 ≤ t then t / c else -((-t) / c) := by
  rw [div64_of_isTimeT ht hc, tdiv_trunc t c (by omega)]

/-- The components stored by the raw-tick constructor. -/
theorem ofTicks_components {t : Int} (ht : IsTimeT t) :
    (TimeSpan.ofTicks t).m_days
        = (if 0 ≤ t then t / 864000000000 else -((-t) / 864000000000)) ∧
    (TimeSpan.ofTicks t).m_hours
        = (if 0 ≤ t then t / 36000000000 else -((-t) / 36000000000)) ∧
    (TimeSpan.ofTicks t).m_minutes
        = (if 0 ≤ t then t / 600000000 else -((-t) / 600000000)) ∧
    (TimeSpan.ofTicks t).m_seconds
        = (if 0 ≤ t then t / 10000000 else -((-t) / 10000000)) ∧
    (TimeSpan.ofTicks t).m_milliseconds
        = (if 0 ≤ t then t / 10000 else -((-t) / 10000)) := by
  simp only [TimeSpan.ofTicks, TimeSpan.ctor5, TicksPerDay_eq, TicksPerHour_eq,
    TicksPerMinute_eq, TicksPerSecond_eq, TicksPerMillisecond]
  refine ⟨?_, ?_, ?_, ?_, ?_⟩ <;> exact div64_trunc ht (by decide)

/-- The quotients converted to `double` by the `Total*` getters are below `2^53`
in absolute value, so the conversion changes no value. -/
theorem total_quotients_exact (d : TimeSpan) :
    |div64 d.Ticks TicksPerDay| < 9007199254740992 ∧
    |div64 d.Ticks TicksPerHour| < 9007199254740992 ∧
    |div64 d.Ticks TicksPerMinute| < 9007199254740992 ∧
    |div64 d.Ticks TicksPerSecond| < 9007199254740992 ∧
    |div64 d.Ticks TicksPerMillisecond| < 9007199254740992 := by
  have ht := Ticks_isTimeT d
  have hr : -9223372036854775808 ≤ d.Ticks ∧ d.Ticks ≤ 9223372036854775807 := ht
  simp only [TicksPerDay_eq, TicksPerHour_eq, TicksPerMinute_eq, TicksPerSecond_eq,
    TicksPerMillisecond]
  refine ⟨?_, ?_, ?_, ?_, ?_⟩ <;>
    (rw [div64_trunc ht (by decide), abs_lt]; split <;> omega)

/-! ## The claims -/

open TimeSpan

/-- C1 (counterexample): `TimeSpan(10675200,0,0,0,0)` is built from `time_t`
values, and `10675200 * 864000000000` is 9223372800000000000, above the largest
`time_t`; its `Ticks()` is -9223371273709551616, not that product. -/
theorem C1_Ticks_overflow :
    IsTimeT 10675200 ∧
    (ctor5 10675200 0 0 0 0).Days = 10675200 ∧
    (10675200 : Int) * 864000000000 + 0 * 36000000000 + 0 * 600000000
      + 0 * 10000000 + 0 * 10000 = 9223372800000000000 ∧
    (ctor5 10675200 0 0 0 0).Ticks = -9223371273709551616 ∧
    (ctor5 10675200 0 0 0 0).Ticks
      ≠ 10675200 * 864000000000 + 0 * 36000000000 + 0 * 600000000
          + 0 * 10000000 + 0 * 10000 := by
  decide

/-- C1 (amended): the five-component constructor stores its arguments verbatim, so that
`Days()`, `Hours()`, `Minutes()`, `Seconds()` and `Milliseconds()` return them
unchanged, and `Ticks()` is the weighted sum
`d*864000000000 + h*36000000000 + m*600000000 + s*10000000 + ms*10000` reduced
to the 64-bit range of `time_t`; it is the exact integer sum precisely when
that sum fits `time_t`.  The 4- and 3-argument constructors are the
5-argument one with milliseconds, respectively days and milliseconds, set to 0. -/
theorem C1_ctor_components_and_ticks (d h m s ms : Int) :
    (ctor5 d h m s ms).Days = d ∧
    (ctor5 d h m s ms).Hours = h ∧
    (ctor5 d h m s ms).Minutes = m ∧
    (ctor5 d h m s ms).Seconds = s ∧
    (ctor5 d h m s ms).Milliseconds = ms ∧
    (ctor5 d h m s ms).Ticks
      = wrap64 (d * 864000000000 + h * 36000000000 + m * 600000000
          + s * 10000000 + ms * 10000) ∧
    ((ctor5 d h m s ms).Ticks
      = d * 864000000000 + h * 36000000000 + m * 600000000
          + s * 10000000 + ms * 10000
      ↔ IsTimeT (d * 864000000000 + h * 36000000000 + m * 600000000
          + s * 10000000 + ms * 10000)) ∧
    ctor4 d h m s = ctor5 d h m s 0 ∧
    ctor3 h m s = ctor5 0 h m s 0 := by
  refine ⟨rfl, rfl, rfl, rfl, rfl, Ticks_eq_wrap _, ?_, rfl, rfl⟩
  rw [Ticks_eq_wrap]
  constructor
  · intro hEq
    have hr := wrap64_isTimeT (d * 864000000000 + h * 36000000000 + m * 600000000
      + s * 10000000 + ms * 10000)
    simp only [ctor5] at hEq
    rw [hEq] at hr
    exact hr
  · intro hr
    exact wrap64_of_isTimeT hr

/-- C2 (evaluation at the failing input): the span built from 10000000 raw ticks
(one second) stores seconds = 1 and milliseconds = 1000, and so reports
20000000 ticks, not 10000000; `FromTicks` does the same. -/
theorem C2_ofTicks_one_second :
    (ofTicks 10000000).Seconds = 1 ∧
    (ofTicks 10000000).Milliseconds = 1000 ∧
    (ofTicks 10000000).Ticks = 20000000 ∧
    (FromTicks 10000000).Ticks = 20000000 ∧
    (ofTicks 10000000).Ticks ≠ 10000000 := by
  decide

/-- C3: for every `time_t` tick count `t`, of either sign, the raw-tick
constructor stores in each component the quotient of the whole of `t` by that
component's tick width, truncated toward zero: the floor quotient for `t ≥ 0`
and minus the floor quotient of `-t` for `t < 0`.  The same `t` is divided
each time; no remainder passes from one unit to the next, and each stored
value is the C++ quotient `t / TicksPer<Unit>`. -/
theorem C3_ofTicks_independent_divisions (t : Int) (ht : IsTimeT t) :
    ((ofTicks t).Days
        = (if 0 ≤ t then t / 864000000000 else -((-t) / 864000000000)) ∧
     (ofTicks t).Hours
        = (if 0 ≤ t then t / 36000000000 else -((-t) / 36000000000)) ∧
     (ofTicks t).Minutes
        = (if 0 ≤ t then t / 600000000 else -((-t) / 600000000)) ∧
     (ofTicks t).Seconds
        = (if 0 ≤ t then t / 10000000 else -((-t) / 10000000)) ∧
     (ofTicks t).Milliseconds
        = (if 0 ≤ t then t / 10000 else -((-t) / 10000))) ∧
    ((ofTicks t).Days = Int.tdiv t TicksPerDay ∧
     (ofTicks t).Hours = Int.tdiv t TicksPerHour ∧
     (ofTicks t).Minutes = Int.tdiv t TicksPerMinute ∧
     (ofTicks t).Seconds = Int.tdiv t TicksPerSecond ∧
     (ofTicks t).Milliseconds = Int.tdiv t TicksPerMillisecond) := by
  refine ⟨ofTicks_components ht, ?_, ?_, ?_, ?_, ?_⟩ <;>
    exact div64_of_isTimeT ht (by decide)

/-- C3 at `t = -900000000000` (minus 25 hours): days = -1, hours = -25,
minutes = -1500, seconds = -90000, milliseconds = -90000000. -/
theorem C3_ofTicks_independent_divisions_witness :
    IsTimeT (-900000000000) ∧
    ((ofTicks (-900000000000)).Days = -1 ∧
     (ofTicks (-900000000000)).Hours = -25 ∧
     (ofTicks (-900000000000)).Minutes = -1500 ∧
     (ofTicks (-900000000000)).Seconds = -90000 ∧
     (ofTicks (-900000000000)).Milliseconds = -90000000) := by
  refine ⟨by decide, ?_⟩
  have h := (C3_ofTicks_independent_divisions (-900000000000) (by decide)).1
  norm_num at h
  exact h

/-- The wrapped difference of two `time_t` values vanishes only for equal values. -/
theorem sub64_eq_zero_iff {x y : Int} (hx : IsTimeT x) (hy : IsTimeT y) :
    sub64 x y = 0 ↔ x = y := by
  unfold IsTimeT at hx hy
  unfold sub64 wrap64
  omega

/-- C4: `Compare(a, b) == 0`, `Equals(a, b)` and `a == b` each hold exactly
when `a.Ticks() == b.Ticks()`, whatever the spread of the total over the five
components; `a != b` is the negation of `a == b`; and `TimeSpan(0,25,0,0,0)`
equals `TimeSpan(1,1,0,0,0)` although their components differ. -/
theorem C4_equality_is_tick_equality (a b : TimeSpan) :
    (Compare a b = 0 ↔ a.Ticks = b.Ticks) ∧
    (Equals a b = true ↔ a.Ticks = b.Ticks) ∧
    (opEq a b = true ↔ a.Ticks = b.Ticks) ∧
    (opNe a b = true ↔ ¬ (a.Ticks = b.Ticks)) ∧
    opNe a b = !(opEq a b) ∧
    (Compare (ctor5 0 25 0 0 0) (ctor5 1 1 0 0 0) = 0 ∧
     Equals (ctor5 0 25 0 0 0) (ctor5 1 1 0 0 0) = true ∧
     opEq (ctor5 0 25 0 0 0) (ctor5 1 1 0 0 0) = true ∧
     ctor5 0 25 0 0 0 ≠ ctor5 1 1 0 0 0) := by
  refine ⟨sub64_eq_zero_iff (Ticks_isTimeT a) (Ticks_isTimeT b), ?_, ?_, ?_, ?_, ?_⟩
  · simp [Equals]
  · simp [opEq]
  · simp [opNe]
  · simp [opNe, opEq]
  · decide

/-- C5 (evaluation at the failing input): `FromHours(1.0)` passes 36000000000
ticks to the raw-tick constructor, which stores hours = 1, minutes = 60,
seconds = 3600 and milliseconds = 3600000, so `Ticks()` is four times
`TicksPerHour`; likewise `FromDays(1.0)` reports five times `TicksPerDay`. -/
theorem C5_FromHours_one :
    (FromHours 1).Hours = 1 ∧
    (FromHours 1).Minutes = 60 ∧
    (FromHours 1).Seconds = 3600 ∧
    (FromHours 1).Milliseconds = 3600000 ∧
    (FromHours 1).Ticks = 4 * TicksPerHour ∧
    (FromHours 1).Ticks ≠ 1 * TicksPerHour ∧
    (FromDays 1).Ticks = 5 * TicksPerDay := by
  decide

/-- C6 (evaluation at the failing inputs): `TimeSpan(0,0,0,90,0).TotalMinutes()`
is 1, the truncated quotient of 900000000 by 600000000, not 1.5; and
`FromSeconds(90.0).TotalMinutes()` is 4. -/
theorem C6_TotalMinutes_truncates :
    (ctor5 0 0 0 90 0).Ticks = 900000000 ∧
    (ctor5 0 0 0 90 0).TotalMinutes = 1 ∧
    (ctor5 0 0 0 90 0).TotalMinutes ≠ 3 / 2 ∧
    (FromSeconds 90).TotalMinutes = 4 ∧
    (FromSeconds 90).TotalMinutes ≠ 3 / 2 := by
  have h1 : (ctor5 0 0 0 90 0).TotalMinutes = 1 := by decide
  have h2 : (FromSeconds 90).TotalMinutes = 4 := by decide
  refine ⟨by decide, h1, ?_, h2, ?_⟩
  · rw [h1]; norm_num
  · rw [h2]; norm_num

/-- C7 (evaluation at the failing input): with `a = b = TimeSpan(0,0,0,1,0)`
(one second each), `a.Add(b).Ticks()` is 40000000 while
`a.Ticks() + b.Ticks()` is 20000000; and with `c = TimeSpan(0,0,0,2,0)`,
`c.Subtract(a).Ticks()` is 20000000 while `c.Ticks() - a.Ticks()` is 10000000. -/
theorem C7_Add_one_second :
    (TimeSpan.Add (ctor5 0 0 0 1 0) (ctor5 0 0 0 1 0)).Ticks = 40000000 ∧
    (ctor5 0 0 0 1 0).Ticks + (ctor5 0 0 0 1 0).Ticks = 20000000 ∧
    (TimeSpan.Subtract (ctor5 0 0 0 2 0) (ctor5 0 0 0 1 0)).Ticks = 20000000 ∧
    (ctor5 0 0 0 2 0).Ticks - (ctor5 0 0 0 1 0).Ticks = 10000000 := by
  decide

/-- C8 (evaluation at the failing input): for `a = b = TimeSpan(0,0,0,1,0)` the
binary `a + b` has the components (0,0,0,2,2000): the milliseconds component is
2000, not `a.Milliseconds() + b.Milliseconds() = 0`, while `a` after `a += b`
has the componentwise sums (0,0,0,2,0).  For `c = TimeSpan(0,0,0,2,0)`, `c - a`
has the components (0,0,0,1,1000) and `c` after `c -= a` has (0,0,0,1,0). -/
theorem C8_opAdd_not_componentwise :
    opAdd (ctor5 0 0 0 1 0) (ctor5 0 0 0 1 0) = ctor5 0 0 0 2 2000 ∧
    (opAdd (ctor5 0 0 0 1 0) (ctor5 0 0 0 1 0)).Milliseconds = 2000 ∧
    (opAdd (ctor5 0 0 0 1 0) (ctor5 0 0 0 1 0)).Milliseconds
      ≠ (ctor5 0 0 0 1 0).Milliseconds + (ctor5 0 0 0 1 0).Milliseconds ∧
    opAddAssign (ctor5 0 0 0 1 0) (ctor5 0 0 0 1 0) = ctor5 0 0 0 2 0 ∧
    opSub (ctor5 0 0 0 2 0) (ctor5 0 0 0 1 0) = ctor5 0 0 0 1 1000 ∧
    (opSub (ctor5 0 0 0 2 0) (ctor5 0 0 0 1 0)).Milliseconds
      ≠ (ctor5 0 0 0 2 0).Milliseconds - (ctor5 0 0 0 1 0).Milliseconds ∧
    opSubAssign (ctor5 0 0 0 2 0) (ctor5 0 0 0 1 0) = ctor5 0 0 0 1 0 := by
  decide

/-- What the binary operators compute: with `s` the `time_t` sum
`a.Ticks() + b.Ticks()`, each of the five components of `a + b` is the quotient
of `s` by that component's tick width, truncated toward zero; `a - b` is the
same with the `time_t` difference. -/
theorem opAdd_decomposes_tick_sum (a b : TimeSpan) :
    ((opAdd a b).Days = Int.tdiv (wrap64 (a.Ticks + b.Ticks)) 864000000000 ∧
     (opAdd a b).Hours = Int.tdiv (wrap64 (a.Ticks + b.Ticks)) 36000000000 ∧
     (opAdd a b).Minutes = Int.tdiv (wrap64 (a.Ticks + b.Ticks)) 600000000 ∧
     (opAdd a b).Seconds = Int.tdiv (wrap64 (a.Ticks + b.Ticks)) 10000000 ∧
     (opAdd a b).Milliseconds = Int.tdiv (wrap64 (a.Ticks + b.Ticks)) 10000) ∧
    ((opSub a b).Days = Int.tdiv (wrap64 (a.Ticks - b.Ticks)) 864000000000 ∧
     (opSub a b).Hours = Int.tdiv (wrap64 (a.Ticks - b.Ticks)) 36000000000 ∧
     (opSub a b).Minutes = Int.tdiv (wrap64 (a.Ticks - b.Ticks)) 600000000 ∧
     (opSub a b).Seconds = Int.tdiv (wrap64 (a.Ticks - b.Ticks)) 10000000 ∧
     (opSub a b).Milliseconds = Int.tdiv (wrap64 (a.Ticks - b.Ticks)) 10000) ∧
    opAdd a b = ofTicks (wrap64 (a.Ticks + b.Ticks)) ∧
    opSub a b = ofTicks (wrap64 (a.Ticks - b.Ticks)) := by
  have hs := wrap64_isTimeT (a.Ticks + b.Ticks)
  have hd := wrap64_isTimeT (a.Ticks - b.Ticks)
  simp only [opAdd, opSub, add64, sub64, ofTicks, ctor5, Days, Hours, Minutes, Seconds,
    Milliseconds, TicksPerDay_eq, TicksPerHour_eq, TicksPerMinute_eq, TicksPerSecond_eq,
    TicksPerMillisecond]
  refine ⟨⟨?_, ?_, ?_, ?_, ?_⟩, ⟨?_, ?_, ?_, ?_, ?_⟩, trivial, trivial⟩ <;>
    first
      | exact div64_of_isTimeT hs (by decide)
      | exact div64_of_isTimeT hd (by decide)

/-- C9 (evaluation at the failing input): for `d = TimeSpan(0,0,0,1,0)`,
`d.Ticks()` is 10000000 and `d.Duration().Ticks()` is 20000000; for
`e = TimeSpan(0,0,0,-1,0)`, `e.Ticks()` is -10000000 and
`e.Duration().Ticks()` is 20000000 as well. -/
theorem C9_Duration_one_second :
    (ctor5 0 0 0 1 0).Ticks = 10000000 ∧
    (Duration (ctor5 0 0 0 1 0)).Ticks = 20000000 ∧
    (ctor5 0 0 0 (-1) 0).Ticks = -10000000 ∧
    (Duration (ctor5 0 0 0 (-1) 0)).Ticks = 20000000 ∧
    (Duration (ctor5 0 0 0 (-1) 0)).Ticks ≠ |(ctor5 0 0 0 (-1) 0).Ticks| := by
  decide

/-- C10 (evaluation at the failing input): for `a = TimeSpan(10675199,0,0,0,0)`
and `b = TimeSpan(-10675199,0,0,0,0)` both tick counts fit `time_t`, `a > b`
holds and `a < b` does not, yet `Compare(a, b)` and `a.CompareTo(b)` are the
negative number -201709551616, because the subtraction leaves the 64-bit range. -/
theorem C10_Compare_sign_overflow :
    (ctor5 10675199 0 0 0 0).Ticks = 9223371936000000000 ∧
    (ctor5 (-10675199) 0 0 0 0).Ticks = -9223371936000000000 ∧
    opGt (ctor5 10675199 0 0 0 0) (ctor5 (-10675199) 0 0 0 0) = true ∧
    opLt (ctor5 10675199 0 0 0 0) (ctor5 (-10675199) 0 0 0 0) = false ∧
    Compare (ctor5 10675199 0 0 0 0) (ctor5 (-10675199) 0 0 0 0) = -201709551616 ∧
    CompareTo (ctor5 10675199 0 0 0 0) (ctor5 (-10675199) 0 0 0 0) = -201709551616 ∧
    Compare (ctor5 10675199 0 0 0 0) (ctor5 (-10675199) 0 0 0 0) < 0 := by
  decide

/-! ## Facts about DateTime -/

theorem wrap32_isTimeT (x : Int) : IsTimeT (wrap32 x) := by
  unfold IsTimeT wrap32; omega

theorem excessBits_of_small (fuel a : Nat) (h : a < 9007199254740992) :
    excessBits fuel a = 0 := by
  cases fuel with
  | zero => rfl
  | succ n => simp [excessBits, h]

/-- Integers up to `2^53` are converted to `double` without change. -/
theorem roundDouble_of_small {x : Int}
    (h : -9007199254740992 ≤ x ∧ x ≤ 9007199254740992) : roundDouble x = x := by
  by_cases hlt : x.natAbs < 9007199254740992
  · unfold roundDouble
    simp only [excessBits_of_small _ _ hlt, pow_zero, Nat.div_one, Nat.mod_one, mul_zero,
      Nat.lt_one_iff, if_true, mul_one, Nat.zero_lt_one]
    exact Int.sign_mul_natAbs x
  · have hc : x = 9007199254740992 ∨ x = -9007199254740992 := by omega
    rcases hc with hc | hc <;> subst hc <;> decide

/-- The tick count produced by the `Add<Unit>` methods when the `double`
arithmetic is exact. -/
theorem add_in_double_exact {t p : Int} (h : DateTime.ExactInDouble t p) :
    doubleToTimeT (roundDouble (roundDouble t + roundDouble p)) = t + p := by
  obtain ⟨ht, hp, hs, hr⟩ := h
  rw [ht, hp, hs]
  unfold doubleToTimeT
  exact if_pos hr

/-- Tick counts and products of at most `2^53` in absolute value, with such a
sum, are added exactly. -/
theorem exactInDouble_of_small {t p : Int}
    (ht : -9007199254740992 ≤ t ∧ t ≤ 9007199254740992)
    (hp : -9007199254740992 ≤ p ∧ p ≤ 9007199254740992)
    (hs : -9007199254740992 ≤ t + p ∧ t + p ≤ 9007199254740992) :
    DateTime.ExactInDouble t p :=
  ⟨roundDouble_of_small ht, roundDouble_of_small hp, roundDouble_of_small hs,
    by unfold IsTimeT; omega⟩

/-- After a first read the cache answers every later read with the same value. -/
theorem Update_tm_afterRead (H : Host) (self : DateTime) :
    DateTime.Update_tm H (DateTime.afterRead H self)
      = (DateTime.afterRead H self, (DateTime.Update_tm H self).2) := by
  unfold DateTime.afterRead DateTime.Update_tm
  by_cases h : self.m_tmIsDirty = false <;> simp [h]

theorem getters_afterRead (H : Host) (self : DateTime) :
    DateTime.Day H (DateTime.afterRead H self) = DateTime.Day H self ∧
    DateTime.Month H (DateTime.afterRead H self) = DateTime.Month H self ∧
    DateTime.Year H (DateTime.afterRead H self) = DateTime.Year H self ∧
    DateTime.Hour H (DateTime.afterRead H self) = DateTime.Hour H self ∧
    DateTime.Minute H (DateTime.afterRead H self) = DateTime.Minute H self ∧
    DateTime.Second H (DateTime.afterRead H self) = DateTime.Second H self := by
  simp only [DateTime.Day, DateTime.Month, DateTime.Year, DateTime.Hour, DateTime.Minute,
    DateTime.Second, Update_tm_afterRead, and_self]

theorem Year_isTimeT (H : Host) (self : DateTime) : IsTimeT (DateTime.Year H self) :=
  wrap32_isTimeT _

/-- The computation of `AddMonths` with the cache reads resolved: every getter
returns what it returns on the object as it was at entry. -/
theorem AddMonthsArgs_eq (H : Host) (self : DateTime) (months : Int) :
    DateTime.AddMonthsArgs H self months =
      (DateTime.DaysInMonth
        (if mod64 (add64 (DateTime.Month H self) months) 12 = 0 then DateTime.Month H self
          else mod64 (add64 (DateTime.Month H self) months) 12)
        (add64 (DateTime.Year H self)
          (if mod64 (add64 (DateTime.Month H self) months) 12 = 0
            then sub64 (div64 (add64 (DateTime.Month H self) months) 12) 1
            else div64 (add64 (DateTime.Month H self) months) 12))).map
        (fun n =>
          { year := add64 (DateTime.Year H self)
              (if mod64 (add64 (DateTime.Month H self) months) 12 = 0
                then sub64 (div64 (add64 (DateTime.Month H self) months) 12) 1
                else div64 (add64 (DateTime.Month H self) months) 12),
            month := if mod64 (add64 (DateTime.Month H self) months) 12 = 0
              then DateTime.Month H self
              else mod64 (add64 (DateTime.Month H self) months) 12,
            day := if DateTime.Day H self > n then n else DateTime.Day H self,
            hour := DateTime.Hour H self,
            minute := DateTime.Minute H self,
            second := DateTime.Second H self,
            millisecond := 0,
            kind := self.m_kind }) := by
  unfold DateTime.AddMonthsArgs
  simp only [(getters_afterRead H _).1, (getters_afterRead H _).2.1,
    (getters_afterRead H _).2.2.1, (getters_afterRead H _).2.2.2.1,
    (getters_afterRead H _).2.2.2.2.1, (getters_afterRead H _).2.2.2.2.2,
    DateTime.Millisecond]
  cases DateTime.DaysInMonth _ _ <;> rfl

/-- February has 28 days in every year: after `--month` the month is 1, which
is not 2, and the table entry is returned as it is. -/
theorem DaysInMonth_february (year : Int) : DateTime.DaysInMonth 2 year = some 28 := by
  simp [DateTime.DaysInMonth, sub64, wrap64, DateTime.readAt, DateTime.k_month_days]

/-- One month after any January 31 the civil fields are those of February 28,
in leap years too. -/
theorem AddMonthsArgs_jan31 (H : Host) (dt : DateTime) (y : Int)
    (hd : DateTime.Day H dt = 31) (hm : DateTime.Month H dt = 1)
    (hy : DateTime.Year H dt = y) :
    DateTime.AddMonthsArgs H dt 1 = some
      { year := y, month := 2, day := 28, hour := DateTime.Hour H dt,
        minute := DateTime.Minute H dt, second := DateTime.Second H dt,
        millisecond := 0, kind := dt.Kind } := by
  have hyr := Year_isTimeT H dt
  rw [hy] at hyr
  have e1 : mod64 (add64 1 1) 12 = 2 := by decide
  have e2 : div64 (add64 1 1) 12 = 0 := by decide
  have e3 : add64 y 0 = y := by
    unfold add64; rw [add_zero]; exact wrap64_of_isTimeT hyr
  rw [AddMonthsArgs_eq, hm, hd, hy, e1, e2]
  simp only [show ¬ ((2 : Int) = 0) by decide, if_false, e3, DaysInMonth_february,
    Option.map, DateTime.Kind]
  simp

/-- For a month in 1..12 the table is read in bounds. -/
theorem DaysInMonth_isSome (month year : Int) (h1 : 1 ≤ month) (h12 : month ≤ 12) :
    ∃ n, DateTime.DaysInMonth month year = some n := by
  have hc : month = 1 ∨ month = 2 ∨ month = 3 ∨ month = 4 ∨ month = 5 ∨ month = 6 ∨
      month = 7 ∨ month = 8 ∨ month = 9 ∨ month = 10 ∨ month = 11 ∨ month = 12 := by omega
  rcases hc with h | h | h | h | h | h | h | h | h | h | h | h <;> subst h <;>
    simp [DateTime.DaysInMonth, sub64, wrap64, DateTime.readAt, DateTime.k_month_days]

theorem tmod_of_nonneg {a b : Int} (ha : 0 ≤ a) (hb : 0 ≤ b) : Int.tmod a b = a % b := by
  have h1 := Int.tmod_add_tdiv a b
  have h2 := Int.emod_add_ediv a b
  rw [Int.tdiv_eq_ediv ha hb] at h1
  omega

/-- The month and the year `AddMonths` computes for a non-negative number of
months: the year is the one lying `months` months later; the month is too,
unless `curr_month + months` is a multiple of 12, where it is the current month. -/
theorem AddMonthsArgs_month_year (H : Host) (dt : DateTime) (m y k : Int)
    (hm : DateTime.Month H dt = m) (hm1 : 1 ≤ m) (hm12 : m ≤ 12)
    (hy : DateTime.Year H dt = y) (hk0 : 0 ≤ k) (hk : k ≤ 4611686018427387904) :
    ∃ a, DateTime.AddMonthsArgs H dt k = some a ∧
      a.year = y + (m - 1 + k) / 12 ∧
      a.month = (if (m + k) % 12 = 0 then m else (m - 1 + k) % 12 + 1) := by
  have hyr : IsTimeT y := by rw [← hy]; exact Year_isTimeT H dt
  have hy32 : -2147483648 ≤ y ∧ y ≤ 2147483647 := by
    rw [← hy]; unfold DateTime.Year add32 wrap32; omega
  have hs : add64 m k = m + k := by
    unfold add64; apply wrap64_of_isTimeT; unfold IsTimeT; omega
  have hmod : mod64 (m + k) 12 = (m + k) % 12 := by
    unfold mod64
    rw [tmod_of_nonneg (by omega) (by omega)]
    apply wrap64_of_isTimeT; unfold IsTimeT; omega
  have hdiv : div64 (m + k) 12 = (m + k) / 12 := by
    rw [div64_of_isTimeT (by unfold IsTimeT; omega) (by omega),
      Int.tdiv_eq_ediv (by omega) (by omega)]
  rw [AddMonthsArgs_eq, hm, hy, hs, hmod, hdiv]
  by_cases h0 : (m + k) % 12 = 0
  · simp only [h0, if_true]
    have hsub : sub64 ((m + k) / 12) 1 = (m + k) / 12 - 1 := by
      unfold sub64; apply wrap64_of_isTimeT; unfold IsTimeT; omega
    have hyear : add64 y ((m + k) / 12 - 1) = y + (m - 1 + k) / 12 := by
      unfold add64
      rw [wrap64_of_isTimeT (by unfold IsTimeT; omega)]
      omega
    rw [hsub, hyear]
    obtain ⟨n, hn⟩ := DaysInMonth_isSome m (y + (m - 1 + k) / 12) hm1 hm12
    rw [hn]
    exact ⟨_, rfl, rfl, rfl⟩
  · simp only [h0, if_false]
    have hyear : add64 y ((m + k) / 12) = y + (m - 1 + k) / 12 := by
      unfold add64
      rw [wrap64_of_isTimeT (by unfold IsTimeT; omega)]
      omega
    have hmon : (m + k) % 12 = (m - 1 + k) % 12 + 1 := by omega
    rw [hyear]
    obtain ⟨n, hn⟩ := DaysInMonth_isSome ((m + k) % 12) (y + (m - 1 + k) / 12)
      (by omega) (by omega)
    rw [hn]
    exact ⟨_, rfl, rfl, hmon⟩


/-! ## The claims on DateTime -/

/-- C11 (evaluation at the failing inputs): `IsLeapYear` returns false for 2000
and for 2024 and true for 1900; of the four years of the table only 2023 gets
the Gregorian answer.  The year must be a multiple of 4 and of 100 and not of
400 for the code to answer true. -/
theorem C11_IsLeapYear_table :
    DateTime.IsLeapYear 2000 = false ∧
    DateTime.IsLeapYear 1900 = true ∧
    DateTime.IsLeapYear 2024 = false ∧
    DateTime.IsLeapYear 2023 = false := by
  decide

/-- C12 (evaluation at the failing input): `DaysInMonth(2, y)` is 28 for every
year `y`, so `DaysInMonth(2, 2024)` is 28, not 29; and `IsLeapYear(2024)`, which
February never consults, is false. -/
theorem C12_DaysInMonth_february_always_28 (y : Int) :
    DateTime.DaysInMonth 2 y = some 28 ∧
    DateTime.DaysInMonth 2 2024 = some 28 ∧
    DateTime.DaysInMonth 2 2023 = some 28 ∧
    DateTime.IsLeapYear 2024 = false :=
  ⟨DaysInMonth_february y, by decide, by decide, by decide⟩

/-- C13 (evaluation at the failing inputs): the month whose length follows
`IsLeapYear` is March, not February.  `IsLeapYear(1900)` is true,
`DaysInMonth(2, 1900)` is 28 (the table entry, nothing added) and
`DaysInMonth(3, 1900)` is 32, while `DaysInMonth(3, 2023)` is 31. -/
theorem C13_DaysInMonth_march_varies :
    DateTime.IsLeapYear 1900 = true ∧
    DateTime.DaysInMonth 2 1900 = some 28 ∧
    DateTime.DaysInMonth 3 1900 = some 32 ∧
    DateTime.DaysInMonth 3 2023 = some 31 ∧
    DateTime.DaysInMonth 4 1900 = some 30 := by
  decide

/-- C14 (evaluation at the failing input): on the reference host at offset 0,
the instant `DateTime(2024,1,31,10,20,30,0)` reads as 2024-01-31, and
`AddMonths(1)` builds its result from the civil date 2024-02-28, not 2024-02-29,
with hour, minute, second and kind carried over; the result reads back as
2024-02-28. -/
theorem C14_AddMonths_jan31_2024 :
    DateTime.Year (posixHost 0)
      (DateTime.ctorCivil (posixHost 0) 2024 1 31 10 20 30 0 DateTimeKind.UTC) = 2024 ∧
    DateTime.Month (posixHost 0)
      (DateTime.ctorCivil (posixHost 0) 2024 1 31 10 20 30 0 DateTimeKind.UTC) = 1 ∧
    DateTime.Day (posixHost 0)
      (DateTime.ctorCivil (posixHost 0) 2024 1 31 10 20 30 0 DateTimeKind.UTC) = 31 ∧
    DateTime.AddMonthsArgs (posixHost 0)
      (DateTime.ctorCivil (posixHost 0) 2024 1 31 10 20 30 0 DateTimeKind.UTC) 1
      = some { year := 2024, month := 2, day := 28, hour := 10, minute := 20,
               second := 30, millisecond := 0, kind := DateTimeKind.UTC } ∧
    (DateTime.AddMonths (posixHost 0)
      (DateTime.ctorCivil (posixHost 0) 2024 1 31 10 20 30 0 DateTimeKind.UTC) 1).map
        (fun r => (DateTime.Year (posixHost 0) r, DateTime.Month (posixHost 0) r,
          DateTime.Day (posixHost 0) r))
      = some (2024, 2, 28) := by
  decide

/-- C15 (evaluation at the failing inputs): on the reference host at offset 0,
November 15 of 2023 plus 1 month is built in November 2023, not December, and
June 15 of 2023 plus 6 months is built in June 2023, not December. -/
theorem C15_AddMonths_stays_in_current_month :
    DateTime.Month (posixHost 0)
      (DateTime.ctorCivil (posixHost 0) 2023 11 15 10 20 30 0 DateTimeKind.UTC) = 11 ∧
    DateTime.AddMonthsArgs (posixHost 0)
      (DateTime.ctorCivil (posixHost 0) 2023 11 15 10 20 30 0 DateTimeKind.UTC) 1
      = some { year := 2023, month := 11, day := 15, hour := 10, minute := 20,
               second := 30, millisecond := 0, kind := DateTimeKind.UTC } ∧
    DateTime.Month (posixHost 0)
      (DateTime.ctorCivil (posixHost 0) 2023 6 15 10 20 30 0 DateTimeKind.UTC) = 6 ∧
    DateTime.AddMonthsArgs (posixHost 0)
      (DateTime.ctorCivil (posixHost 0) 2023 6 15 10 20 30 0 DateTimeKind.UTC) 6
      = some { year := 2023, month := 6, day := 15, hour := 10, minute := 20,
               second := 30, millisecond := 0, kind := DateTimeKind.UTC } := by
  decide

/-- C16: on every host and for every instant, `AddYears(n)` returns what
`AddMonths` returns for the `time_t` product `n * 12`; when `12 * n` fits
`time_t` this is `AddMonths(12 * n)`: the same result, tick count and kind
included (and the same undefined table read, if any). -/
theorem C16_AddYears_is_AddMonths_twelve (H : Host) (dt : DateTime) (n : Int)
    (hn : IsTimeT (12 * n)) :
    DateTime.AddYears H dt n = DateTime.AddMonths H dt (12 * n) ∧
    (DateTime.AddYears H dt n).map DateTime.Ticks
      = (DateTime.AddMonths H dt (12 * n)).map DateTime.Ticks ∧
    (DateTime.AddYears H dt n).map DateTime.Kind
      = (DateTime.AddMonths H dt (12 * n)).map DateTime.Kind := by
  have h : DateTime.AddYears H dt n = DateTime.AddMonths H dt (12 * n) := by
    unfold DateTime.AddYears mul64
    rw [mul_comm n 12, wrap64_of_isTimeT hn]
  exact ⟨h, by rw [h], by rw [h]⟩

/-- C16 on the reference host at offset 0, for 2023-03-15 and `n = 2`. -/
theorem C16_AddYears_is_AddMonths_twelve_witness :
    IsTimeT (12 * 2) ∧
    DateTime.AddYears (posixHost 0)
        (DateTime.ctorCivil (posixHost 0) 2023 3 15 10 20 30 0 DateTimeKind.UTC) 2
      = DateTime.AddMonths (posixHost 0)
        (DateTime.ctorCivil (posixHost 0) 2023 3 15 10 20 30 0 DateTimeKind.UTC) (12 * 2) :=
  ⟨by decide, (C16_AddYears_is_AddMonths_twelve (posixHost 0)
    (DateTime.ctorCivil (posixHost 0) 2023 3 15 10 20 30 0 DateTimeKind.UTC) 2
    (by decide)).1⟩

/-- C17 (evaluation at the failing input): on a host three hours behind
universal time, `DateTime(2024,1,1,0,0,0,0, UTC)` reads back hour 3, not 0:
`mktime` takes the fields as local time and `gmtime_r` reads universal time.
On a host three hours ahead it reads back 2023-12-31, 21 hours.  On the host at
offset 0, and for kind `Local` on any of them, the fields read back unchanged. -/
theorem C17_civil_roundtrip_depends_on_offset :
    DateTime.Hour (posixHost (-10800))
      (DateTime.ctorCivil (posixHost (-10800)) 2024 1 1 0 0 0 0 DateTimeKind.UTC) = 3 ∧
    (DateTime.Year (posixHost 10800)
        (DateTime.ctorCivil (posixHost 10800) 2024 1 1 0 0 0 0 DateTimeKind.UTC) = 2023 ∧
     DateTime.Month (posixHost 10800)
        (DateTime.ctorCivil (posixHost 10800) 2024 1 1 0 0 0 0 DateTimeKind.UTC) = 12 ∧
     DateTime.Day (posixHost 10800)
        (DateTime.ctorCivil (posixHost 10800) 2024 1 1 0 0 0 0 DateTimeKind.UTC) = 31 ∧
     DateTime.Hour (posixHost 10800)
        (DateTime.ctorCivil (posixHost 10800) 2024 1 1 0 0 0 0 DateTimeKind.UTC) = 21) ∧
    DateTime.Hour (posixHost 0)
      (DateTime.ctorCivil (posixHost 0) 2024 1 1 0 0 0 0 DateTimeKind.UTC) = 0 ∧
    DateTime.Hour (posixHost (-10800))
      (DateTime.ctorCivil (posixHost (-10800)) 2024 1 1 0 0 0 0 DateTimeKind.Local) = 0 := by
  decide

/-- C18: for every instant with tick count `t` and kind `k` and every whole
number `n`, whenever the `double` arithmetic is exact (the tick count, the
product `n * unit` and their sum are values of `double`, and the sum fits
`time_t`), `AddDays(n)`, `AddHours(n)`, `AddMinutes(n)`, `AddSeconds(n)` and
`AddMilliseconds(n)` return an instant with tick count `t + n * unit`, for the
unit widths 864000000000, 36000000000, 600000000, 10000000 and 10000, and with
kind `k`.  The methods return a new value; the instant itself is not written. -/
theorem C18_Add_units_offset_ticks (dt : DateTime) (n : Int) :
    (DateTime.ExactInDouble dt.Ticks (n * TicksPerDay) →
      (dt.AddDays n).Ticks = dt.Ticks + n * 864000000000 ∧
      (dt.AddDays n).Kind = dt.Kind) ∧
    (DateTime.ExactInDouble dt.Ticks (n * TicksPerHour) →
      (dt.AddHours n).Ticks = dt.Ticks + n * 36000000000 ∧
      (dt.AddHours n).Kind = dt.Kind) ∧
    (DateTime.ExactInDouble dt.Ticks (n * TicksPerMinute) →
      (dt.AddMinutes n).Ticks = dt.Ticks + n * 600000000 ∧
      (dt.AddMinutes n).Kind = dt.Kind) ∧
    (DateTime.ExactInDouble dt.Ticks (n * TicksPerSecond) →
      (dt.AddSeconds n).Ticks = dt.Ticks + n * 10000000 ∧
      (dt.AddSeconds n).Kind = dt.Kind) ∧
    (DateTime.ExactInDouble dt.Ticks (n * TicksPerMillisecond) →
      (dt.AddMilliseconds n).Ticks = dt.Ticks + n * 10000 ∧
      (dt.AddMilliseconds n).Kind = dt.Kind) := by
  refine ⟨?_, ?_, ?_, ?_, ?_⟩ <;> intro h <;> refine ⟨?_, rfl⟩
  · have e := add_in_double_exact h
    rw [TicksPerDay_eq] at e
    exact e
  · have e := add_in_double_exact h
    rw [TicksPerHour_eq] at e
    exact e
  · have e := add_in_double_exact h
    rw [TicksPerMinute_eq] at e
    exact e
  · have e := add_in_double_exact h
    rw [TicksPerSecond_eq] at e
    exact e
  · exact add_in_double_exact h

/-- C18 at the instant of 17066592000000000 ticks (2024-01-31, kind UTC) and
`n = 2`: every one of the five sums is exact, and the five results follow. -/
theorem C18_Add_units_offset_ticks_witness :
    (DateTime.ExactInDouble 17066592000000000 (2 * TicksPerDay) ∧
     DateTime.ExactInDouble 17066592000000000 (2 * TicksPerHour) ∧
     DateTime.ExactInDouble 17066592000000000 (2 * TicksPerMinute) ∧
     DateTime.ExactInDouble 17066592000000000 (2 * TicksPerSecond) ∧
     DateTime.ExactInDouble 17066592000000000 (2 * TicksPerMillisecond)) ∧
    ((DateTime.ctorTicks 17066592000000000 DateTimeKind.UTC).AddDays 2).Ticks
      = 17066592000000000 + 2 * 864000000000 ∧
    ((DateTime.ctorTicks 17066592000000000 DateTimeKind.UTC).AddHours 2).Ticks
      = 17066592000000000 + 2 * 36000000000 ∧
    ((DateTime.ctorTicks 17066592000000000 DateTimeKind.UTC).AddMinutes 2).Ticks
      = 17066592000000000 + 2 * 600000000 ∧
    ((DateTime.ctorTicks 17066592000000000 DateTimeKind.UTC).AddSeconds 2).Ticks
      = 17066592000000000 + 2 * 10000000 ∧
    ((DateTime.ctorTicks 17066592000000000 DateTimeKind.UTC).AddMilliseconds 2).Ticks
      = 17066592000000000 + 2 * 10000 ∧
    ((DateTime.ctorTicks 17066592000000000 DateTimeKind.UTC).AddDays 2).Kind
      = DateTimeKind.UTC := by
  have h := C18_Add_units_offset_ticks
    (DateTime.ctorTicks 17066592000000000 DateTimeKind.UTC) 2
  exact ⟨by decide, (h.1 (by decide)).1, (h.2.1 (by decide)).1, (h.2.2.1 (by decide)).1,
    (h.2.2.2.1 (by decide)).1, (h.2.2.2.2 (by decide)).1, (h.1 (by decide)).2⟩

/-- C19 (counterexample): on the reference host at offset 0,
`DateTime(100000,1,1,0,0,0,0)` has 3093527980800 seconds since the epoch; the
product with `TicksPerSecond` does not fit `time_t`, the stored tick count is
-5958208339419103232, and it leaves the remainder 896768 on division by
10000000: it is not a whole multiple of `TicksPerSecond`. -/
theorem C19_ticks_not_multiple_year_100000 :
    (posixHost 0).mktime (DateTime.civil_tm 100000 1 1 0 0 0) = 3093527980800 ∧
    ¬ IsTimeT (3093527980800 * 10000000) ∧
    (DateTime.ctorCivil (posixHost 0) 100000 1 1 0 0 0 0 DateTimeKind.UTC).Ticks
      = -5958208339419103232 ∧
    (DateTime.ctorCivil (posixHost 0) 100000 1 1 0 0 0 0 DateTimeKind.UTC).Ticks % 10000000
      = 896768 ∧
    ¬ (TicksPerSecond ∣
      (DateTime.ctorCivil (posixHost 0) 100000 1 1 0 0 0 0 DateTimeKind.UTC).Ticks) := by
  decide

/-- C19 (amended): on every host, for all civil fields and every kind, the tick count the
civil-field constructor stores is the same for any two millisecond arguments,
and it is the `time_t` product of the host's `mktime` result and
`TicksPerSecond`; whenever that product fits `time_t` it is the exact product,
a whole multiple of 10000000. -/
theorem C19_ctorCivil_ignores_millisecond (H : Host)
    (year month day hour minute second ms1 ms2 : Int) (kind : DateTimeKind) :
    (DateTime.ctorCivil H year month day hour minute second ms1 kind).Ticks
      = (DateTime.ctorCivil H year month day hour minute second ms2 kind).Ticks ∧
    (DateTime.ctorCivil H year month day hour minute second ms1 kind).Ticks
      = wrap64 (H.mktime (DateTime.civil_tm year month day hour minute second) * 10000000) ∧
    (IsTimeT (H.mktime (DateTime.civil_tm year month day hour minute second) * 10000000) →
      (DateTime.ctorCivil H year month day hour minute second ms1 kind).Ticks
        = H.mktime (DateTime.civil_tm year month day hour minute second) * 10000000 ∧
      (10000000 : Int) ∣
        (DateTime.ctorCivil H year month day hour minute second ms1 kind).Ticks) := by
  have e : (DateTime.ctorCivil H year month day hour minute second ms1 kind).Ticks
      = wrap64 (H.mktime (DateTime.civil_tm year month day hour minute second) * 10000000) := by
    simp only [DateTime.ctorCivil, DateTime.Ticks, mul64, TicksPerSecond_eq]
  refine ⟨rfl, e, ?_⟩
  intro hfit
  rw [e, wrap64_of_isTimeT hfit]
  exact ⟨rfl, Dvd.intro_left _ rfl⟩

/-- C19 on the reference host at offset 0: `DateTime(2024,1,31,10,20,30,ms)`
has 17066964300000000 ticks, 1706696430 seconds, whether `ms` is 0 or 999. -/
theorem C19_ctorCivil_ignores_millisecond_witness :
    IsTimeT ((posixHost 0).mktime (DateTime.civil_tm 2024 1 31 10 20 30) * 10000000) ∧
    (DateTime.ctorCivil (posixHost 0) 2024 1 31 10 20 30 999 DateTimeKind.UTC).Ticks
      = (posixHost 0).mktime (DateTime.civil_tm 2024 1 31 10 20 30) * 10000000 ∧
    (10000000 : Int) ∣
      (DateTime.ctorCivil (posixHost 0) 2024 1 31 10 20 30 999 DateTimeKind.UTC).Ticks ∧
    (DateTime.ctorCivil (posixHost 0) 2024 1 31 10 20 30 999 DateTimeKind.UTC).Ticks
      = 17066964300000000 :=
  ⟨by decide,
   ((C19_ctorCivil_ignores_millisecond (posixHost 0) 2024 1 31 10 20 30 999 0
      DateTimeKind.UTC).2.2 (by decide)).1,
   ((C19_ctorCivil_ignores_millisecond (posixHost 0) 2024 1 31 10 20 30 999 0
      DateTimeKind.UTC).2.2 (by decide)).2,
   by decide⟩

/-- C20 (evaluation at the failing inputs): `ToUniversalTime()` on an instant
of kind `Local` leaves the kind `Local`, and `ToLocalTime()` on an instant of
kind `UTC` leaves the kind `UTC`; neither changes the tick count. -/
theorem C20_kind_conversions_change_nothing :
    (DateTime.ToUniversalTime (DateTime.ctorTicks 17066592000000000 DateTimeKind.Local)).Kind
      = DateTimeKind.Local ∧
    (DateTime.ToUniversalTime (DateTime.ctorTicks 17066592000000000 DateTimeKind.None)).Kind
      = DateTimeKind.None ∧
    (DateTime.ToLocalTime (DateTime.ctorTicks 17066592000000000 DateTimeKind.UTC)).Kind
      = DateTimeKind.UTC ∧
    (DateTime.ToUniversalTime (DateTime.ctorTicks 17066592000000000 DateTimeKind.Local)).Ticks
      = 17066592000000000 ∧
    (DateTime.ToLocalTime (DateTime.ctorTicks 17066592000000000 DateTimeKind.UTC)).Ticks
      = 17066592000000000 := by
  decide

/-! ## Further claims on TimeSpan and DateTime -/

/-- C21 (evaluation at the failing inputs): `MaxValue()` stores the five
quotients of 9223372036854775807 and its `Ticks()` is 9223371907085666768, so
`TimeSpan(0,0,0,0,922337203685477)`, with 9223372036854770000 ticks, is not
`<= MaxValue()`; likewise `MinValue().Ticks()` is -9223371907085666768 and
`MinValue() <= TimeSpan(0,0,0,0,-922337203685477)` is false. -/
theorem C21_MaxValue_not_maximum :
    IsTimeT 922337203685477 ∧
    MaxValue.Ticks = 9223371907085666768 ∧
    (ctor5 0 0 0 0 922337203685477).Ticks = 9223372036854770000 ∧
    opLe (ctor5 0 0 0 0 922337203685477) MaxValue = false ∧
    MinValue.Ticks = -9223371907085666768 ∧
    (ctor5 0 0 0 0 (-922337203685477)).Ticks = -9223372036854770000 ∧
    opLe MinValue (ctor5 0 0 0 0 (-922337203685477)) = false := by
  decide

/-- C22: `TimeSpan(0).Ticks()` is 0 and `Zero().Ticks()` is 0; the span built
from zero ticks, and `Zero()`, have all five components equal to 0. -/
theorem C22_zero_ticks :
    (ofTicks 0).Ticks = 0 ∧
    Zero.Ticks = 0 ∧
    ((ofTicks 0).Days = 0 ∧ (ofTicks 0).Hours = 0 ∧ (ofTicks 0).Minutes = 0 ∧
      (ofTicks 0).Seconds = 0 ∧ (ofTicks 0).Milliseconds = 0) ∧
    (Zero.Days = 0 ∧ Zero.Hours = 0 ∧ Zero.Minutes = 0 ∧
      Zero.Seconds = 0 ∧ Zero.Milliseconds = 0) ∧
    ofTicks 0 = ctor5 0 0 0 0 0 := by
  decide

/-- C23 (evaluation at the failing input): for the instant of
17066964300000000 ticks (2024-01-31 10:20:30 on the reference host at offset 0),
`TimeOfDay()` is the span built from the whole tick count since the epoch; its
`Ticks()` is 85334436600000000, far above `TicksPerDay` = 864000000000, where
the time of day 10:20:30 is 372300000000 ticks. -/
theorem C23_TimeOfDay_is_ticks_since_epoch :
    (DateTime.ctorCivil (posixHost 0) 2024 1 31 10 20 30 0 DateTimeKind.UTC).Ticks
      = 17066964300000000 ∧
    DateTime.TimeOfDay (DateTime.ctorTicks 17066964300000000 DateTimeKind.UTC)
      = ofTicks 17066964300000000 ∧
    (DateTime.TimeOfDay (DateTime.ctorTicks 17066964300000000 DateTimeKind.UTC)).Days
      = 19753 ∧
    (DateTime.TimeOfDay (DateTime.ctorTicks 17066964300000000 DateTimeKind.UTC)).Ticks
      = 85334436600000000 ∧
    ¬ ((DateTime.TimeOfDay (DateTime.ctorTicks 17066964300000000 DateTimeKind.UTC)).Ticks
      < TicksPerDay) ∧
    (ctor3 10 20 30).Ticks = 372300000000 := by
  decide

/-- C24 (evaluation): `SpecifyKind` returns no instant, whatever its arguments;
for example for the instant of 17066964300000000 ticks of kind UTC and the
kind `Local`. -/
theorem C24_SpecifyKind_returns_nothing (dt : DateTime) (K : DateTimeKind) :
    DateTime.SpecifyKind dt K = none ∧
    DateTime.SpecifyKind (DateTime.ctorTicks 17066964300000000 DateTimeKind.UTC)
      DateTimeKind.Local = none :=
  ⟨rfl, rfl⟩

/-- C25 (evaluation at the failing input): on the reference host at offset 0,
for the instant 2023-06-15 10:20:30 (month 6) and `months = -8`, the remainder
`(6 + -8) % 12` is -2, so `DaysInMonth` is called with month -2 and reads the
table at index -3, out of bounds; `AddMonths(-7)` reads at index -2. -/
theorem C25_AddMonths_negative_out_of_bounds :
    DateTime.Month (posixHost 0)
      (DateTime.ctorCivil (posixHost 0) 2023 6 15 10 20 30 0 DateTimeKind.UTC) = 6 ∧
    IsTimeT (-8) ∧
    mod64 (add64 6 (-8)) 12 = -2 ∧
    sub64 (-2) 1 = -3 ∧
    DateTime.DaysInMonth (-2) 2023 = none ∧
    DateTime.AddMonthsArgs (posixHost 0)
      (DateTime.ctorCivil (posixHost 0) 2023 6 15 10 20 30 0 DateTimeKind.UTC) (-8) = none ∧
    DateTime.AddMonths (posixHost 0)
      (DateTime.ctorCivil (posixHost 0) 2023 6 15 10 20 30 0 DateTimeKind.UTC) (-8) = none ∧
    DateTime.AddMonthsArgs (posixHost 0)
      (DateTime.ctorCivil (posixHost 0) 2023 6 15 10 20 30 0 DateTimeKind.UTC) (-7) = none := by
  decide

/-- A read through a coherent cache returns the breakdown of the current tick
count and kind. -/
theorem Update_tm_of_coherent (H : Host) (s : DateTime) (hc : DateTime.CacheCoherent H s) :
    (DateTime.Update_tm H s).2 = convert_to_tm H s.m_ticksSinceUnixEpoch s.m_kind := by
  unfold DateTime.Update_tm
  by_cases h : s.m_tmIsDirty = false
  · rw [if_pos h]
    exact hc h
  · rw [if_neg h]

/-- Every operation keeps the cache coherent and the tick count and kind. -/
theorem step_preserves (H : Host) (s : DateTime) (op : DateTime.Op)
    (hc : DateTime.CacheCoherent H s) :
    DateTime.CacheCoherent H (DateTime.step H s op) ∧
    (DateTime.step H s op).m_ticksSinceUnixEpoch = s.m_ticksSinceUnixEpoch ∧
    (DateTime.step H s op).m_kind = s.m_kind := by
  cases op with
  | read =>
    simp only [DateTime.step, DateTime.afterRead, DateTime.Update_tm]
    by_cases h : s.m_tmIsDirty = false
    · rw [if_pos h]
      exact ⟨hc, rfl, rfl⟩
    · rw [if_neg h]
      exact ⟨fun _ => rfl, rfl, rfl⟩
  | toLocalTime => exact ⟨hc, rfl, rfl⟩
  | toUniversalTime =>
    have e : DateTime.step H s DateTime.Op.toUniversalTime = s := by
      simp only [DateTime.step, DateTime.ToUniversalTime, ite_self]
    rw [e]
    exact ⟨hc, rfl, rfl⟩

theorem run_preserves (H : Host) (ops : List DateTime.Op) :
    ∀ s : DateTime, DateTime.CacheCoherent H s →
      DateTime.CacheCoherent H (DateTime.run H s ops) ∧
      (DateTime.run H s ops).m_ticksSinceUnixEpoch = s.m_ticksSinceUnixEpoch ∧
      (DateTime.run H s ops).m_kind = s.m_kind := by
  induction ops with
  | nil => intro s hc; exact ⟨hc, rfl, rfl⟩
  | cons op rest ih =>
    intro s hc
    obtain ⟨h1, h2, h3⟩ := step_preserves H s op hc
    obtain ⟨k1, k2, k3⟩ := ih (DateTime.step H s op) h1
    refine ⟨k1, ?_, ?_⟩
    · show (DateTime.run H (DateTime.step H s op) rest).m_ticksSinceUnixEpoch = _
      rw [k2, h2]
    · show (DateTime.run H (DateTime.step H s op) rest).m_kind = _
      rw [k3, h3]

/-- C26: on every host, start from an object just built by either constructor
and apply any sequence of calendar reads, `ToLocalTime` and `ToUniversalTime`.
In the state reached, whenever `m_tmIsDirty` is false the cached `m_tm` equals
`convert_to_tm(m_ticksSinceUnixEpoch, m_kind)`; the tick count and the kind are
those of the constructed object; `Year`, `Month`, `Day`, `Hour`, `Minute`,
`Second`, `DayOfWeek` and `DayOfYear` return the values derived from that tick
count and kind, whatever was read before; and a read changes neither `Ticks()`
nor `Kind()`. -/
theorem C26_cache_coherence (H : Host) (s0 : DateTime) (ops : List DateTime.Op)
    (hs0 : (∃ ticks kind, s0 = DateTime.ctorTicks ticks kind) ∨
      (∃ y mo d h mi s ms kind, s0 = DateTime.ctorCivil H y mo d h mi s ms kind)) :
    DateTime.CacheCoherent H (DateTime.run H s0 ops) ∧
    ((DateTime.run H s0 ops).Ticks = s0.Ticks ∧ (DateTime.run H s0 ops).Kind = s0.Kind) ∧
    (DateTime.Year H (DateTime.run H s0 ops)
        = add32 (convert_to_tm H s0.Ticks s0.Kind).tm_year 1900 ∧
     DateTime.Month H (DateTime.run H s0 ops)
        = add32 (convert_to_tm H s0.Ticks s0.Kind).tm_mon 1 ∧
     DateTime.Day H (DateTime.run H s0 ops) = (convert_to_tm H s0.Ticks s0.Kind).tm_mday ∧
     DateTime.Hour H (DateTime.run H s0 ops) = (convert_to_tm H s0.Ticks s0.Kind).tm_hour ∧
     DateTime.Minute H (DateTime.run H s0 ops) = (convert_to_tm H s0.Ticks s0.Kind).tm_min ∧
     DateTime.Second H (DateTime.run H s0 ops) = (convert_to_tm H s0.Ticks s0.Kind).tm_sec ∧
     DateTime.DayOfWeek H (DateTime.run H s0 ops)
        = (convert_to_tm H s0.Ticks s0.Kind).tm_wday ∧
     DateTime.DayOfYear H (DateTime.run H s0 ops)
        = add32 (convert_to_tm H s0.Ticks s0.Kind).tm_yday 1) ∧
    ((DateTime.afterRead H (DateTime.run H s0 ops)).Ticks = (DateTime.run H s0 ops).Ticks ∧
     (DateTime.afterRead H (DateTime.run H s0 ops)).Kind = (DateTime.run H s0 ops).Kind) := by
  have hc0 : DateTime.CacheCoherent H s0 := by
    intro hd
    rcases hs0 with ⟨t, k, rfl⟩ | ⟨y, mo, d, h, mi, s, ms, k, rfl⟩ <;>
      simp [DateTime.ctorTicks, DateTime.ctorCivil] at hd
  obtain ⟨hc, ht, hk⟩ := run_preserves H ops s0 hc0
  have hu := Update_tm_of_coherent H _ hc
  rw [ht, hk] at hu
  obtain ⟨_, ht2, hk2⟩ := step_preserves H (DateTime.run H s0 ops) DateTime.Op.read hc
  refine ⟨hc, ⟨ht, hk⟩, ?_, ⟨ht2, hk2⟩⟩
  simp only [DateTime.Year, DateTime.Month, DateTime.Day, DateTime.Hour, DateTime.Minute,
    DateTime.Second, DateTime.DayOfWeek, DateTime.DayOfYear, hu, DateTime.Ticks, DateTime.Kind,
    and_self]

/-- C26 for the object `DateTime(17066964300000000, UTC)` after a read,
`ToLocalTime`, a read and `ToUniversalTime`, on the reference host at offset 0. -/
theorem C26_cache_coherence_witness :
    DateTime.CacheCoherent (posixHost 0)
      (DateTime.run (posixHost 0) (DateTime.ctorTicks 17066964300000000 DateTimeKind.UTC)
        [DateTime.Op.read, DateTime.Op.toLocalTime, DateTime.Op.read,
          DateTime.Op.toUniversalTime]) ∧
    (DateTime.run (posixHost 0) (DateTime.ctorTicks 17066964300000000 DateTimeKind.UTC)
        [DateTime.Op.read, DateTime.Op.toLocalTime, DateTime.Op.read,
          DateTime.Op.toUniversalTime]).Ticks
      = (DateTime.ctorTicks 17066964300000000 DateTimeKind.UTC).Ticks ∧
    (DateTime.run (posixHost 0) (DateTime.ctorTicks 17066964300000000 DateTimeKind.UTC)
        [DateTime.Op.read, DateTime.Op.toLocalTime, DateTime.Op.read,
          DateTime.Op.toUniversalTime]).m_tmIsDirty = false :=
  ⟨(C26_cache_coherence (posixHost 0)
      (DateTime.ctorTicks 17066964300000000 DateTimeKind.UTC)
      [DateTime.Op.read, DateTime.Op.toLocalTime, DateTime.Op.read,
        DateTime.Op.toUniversalTime] (Or.inl ⟨_, _, rfl⟩)).1,
   (C26_cache_coherence (posixHost 0)
      (DateTime.ctorTicks 17066964300000000 DateTimeKind.UTC)
      [DateTime.Op.read, DateTime.Op.toLocalTime, DateTime.Op.read,
        DateTime.Op.toUniversalTime] (Or.inl ⟨_, _, rfl⟩)).2.1.1,
   by decide⟩

/-- The tick count of the span built from `t` raw ticks, for `|t| ≤ 2^60`: the
exact sum of the five truncated quotients times their widths. -/
theorem ofTicks_Ticks_of_small (t : Int)
    (h : -1152921504606846976 ≤ t ∧ t ≤ 1152921504606846976) :
    (ofTicks t).Ticks
      = (if 0 ≤ t then t / 864000000000 else -((-t) / 864000000000)) * 864000000000
      + (if 0 ≤ t then t / 36000000000 else -((-t) / 36000000000)) * 36000000000
      + (if 0 ≤ t then t / 600000000 else -((-t) / 600000000)) * 600000000
      + (if 0 ≤ t then t / 10000000 else -((-t) / 10000000)) * 10000000
      + (if 0 ≤ t then t / 10000 else -((-t) / 10000)) * 10000 := by
  have ht : IsTimeT t := by unfold IsTimeT; omega
  obtain ⟨h1, h2, h3, h4, h5⟩ := ofTicks_components ht
  rw [Ticks_eq_wrap, h1, h2, h3, h4, h5]
  apply wrap64_of_isTimeT
  unfold IsTimeT
  split <;> omega

/-- Truncating division by a positive constant is monotone. -/
theorem trunc_div_mono (c t1 t2 : Int) (hc : 0 < c) (h : t1 ≤ t2) :
    (if 0 ≤ t1 then t1 / c else -((-t1) / c)) ≤ (if 0 ≤ t2 then t2 / c else -((-t2) / c)) := by
  by_cases h1 : 0 ≤ t1
  · have h2 : 0 ≤ t2 := le_trans h1 h
    rw [if_pos h1, if_pos h2]
    exact Int.ediv_le_ediv hc h
  · rw [if_neg h1]
    by_cases h2 : 0 ≤ t2
    · rw [if_pos h2]
      have a1 : 0 ≤ (-t1) / c := Int.ediv_nonneg (by omega) (le_of_lt hc)
      have a2 : 0 ≤ t2 / c := Int.ediv_nonneg h2 (le_of_lt hc)
      omega
    · rw [if_neg h2]
      have a : (-t2) / c ≤ (-t1) / c := Int.ediv_le_ediv hc (by omega)
      omega

/-- C27: for every tick count `t` with `0 ≤ t ≤ 2^60`, `TimeSpan(t).Ticks() == t`
holds if and only if `t < TicksPerSecond` and `t` is a multiple of
`TicksPerMillisecond`; for every other `t` of that range the recomputed tick
count differs from `t`. -/
theorem C27_ofTicks_fixed_points (t : Int) (h0 : 0 ≤ t) (h1 : t ≤ 1152921504606846976) :
    ((ofTicks t).Ticks = t ↔ (t < TicksPerSecond ∧ TicksPerMillisecond ∣ t)) ∧
    (¬ (t < TicksPerSecond ∧ TicksPerMillisecond ∣ t) → (ofTicks t).Ticks ≠ t) := by
  have key : (ofTicks t).Ticks = t ↔ (t < TicksPerSecond ∧ TicksPerMillisecond ∣ t) := by
    rw [ofTicks_Ticks_of_small t (by omega), TicksPerSecond_eq, TicksPerMillisecond,
      Int.dvd_iff_emod_eq_zero]
    simp only [h0, if_true]
    omega
  exact ⟨key, fun hn he => hn (key.mp he)⟩

/-- C27 at `t = 20000` (two milliseconds), which is reproduced, and at
`t = 10000000` (one second), which is not. -/
theorem C27_ofTicks_fixed_points_witness :
    ((0 : Int) ≤ 20000 ∧ (20000 : Int) ≤ 1152921504606846976) ∧
    (ofTicks 20000).Ticks = 20000 ∧
    (ofTicks 10000000).Ticks ≠ 10000000 :=
  ⟨by decide,
   (C27_ofTicks_fixed_points 20000 (by decide) (by decide)).1.mpr
     ⟨by decide, by decide⟩,
   (C27_ofTicks_fixed_points 10000000 (by decide) (by decide)).2
     (fun h => absurd h.1 (by decide))⟩

/-- C28 (evaluation at the failing input): for `a = b = TimeSpan(0,0,0,1,0)`,
`a + b` has 40000000 ticks while `a` after `a += b` has 20000000, so the two
are not `==`; for `c = TimeSpan(0,0,0,2,0)`, `c - a` has 20000000 ticks while
`c` after `c -= a` has 10000000. -/
theorem C28_binary_and_compound_differ :
    (opAdd (ctor5 0 0 0 1 0) (ctor5 0 0 0 1 0)).Ticks = 40000000 ∧
    (opAddAssign (ctor5 0 0 0 1 0) (ctor5 0 0 0 1 0)).Ticks = 20000000 ∧
    opEq (opAdd (ctor5 0 0 0 1 0) (ctor5 0 0 0 1 0))
      (opAddAssign (ctor5 0 0 0 1 0) (ctor5 0 0 0 1 0)) = false ∧
    (opSub (ctor5 0 0 0 2 0) (ctor5 0 0 0 1 0)).Ticks = 20000000 ∧
    (opSubAssign (ctor5 0 0 0 2 0) (ctor5 0 0 0 1 0)).Ticks = 10000000 ∧
    opEq (opSub (ctor5 0 0 0 2 0) (ctor5 0 0 0 1 0))
      (opSubAssign (ctor5 0 0 0 2 0) (ctor5 0 0 0 1 0)) = false := by
  decide

/-- The compound operators on two values, the left one holding `time_t`
components: the components of the result of `+=` are the `time_t` sums, its tick
count is the wrapped sum of the tick counts, and `-=` with the same right value
gives back the left value. -/
theorem opAddAssign_exact (a b : TimeSpan)
    (ha : IsTimeT a.m_days ∧ IsTimeT a.m_hours ∧ IsTimeT a.m_minutes ∧ IsTimeT a.m_seconds ∧
      IsTimeT a.m_milliseconds) :
    ((opAddAssign a b).Days = wrap64 (a.Days + b.Days) ∧
     (opAddAssign a b).Hours = wrap64 (a.Hours + b.Hours) ∧
     (opAddAssign a b).Minutes = wrap64 (a.Minutes + b.Minutes) ∧
     (opAddAssign a b).Seconds = wrap64 (a.Seconds + b.Seconds) ∧
     (opAddAssign a b).Milliseconds = wrap64 (a.Milliseconds + b.Milliseconds)) ∧
    (opAddAssign a b).Ticks = wrap64 (a.Ticks + b.Ticks) ∧
    opSubAssign (opAddAssign a b) b = a := by
  obtain ⟨h1, h2, h3, h4, h5⟩ := ha
  refine ⟨⟨rfl, rfl, rfl, rfl, rfl⟩, ?_, ?_⟩
  · rw [Ticks_eq_wrap, Ticks_eq_wrap, Ticks_eq_wrap]
    simp only [opAddAssign, add64]
    unfold wrap64
    omega
  · cases a with
    | mk d h m s ms =>
      simp only [opSubAssign, opAddAssign, add64, sub64, TimeSpan.mk.injEq]
      unfold IsTimeT at h1 h2 h3 h4 h5
      simp only at h1 h2 h3 h4 h5
      unfold wrap64
      refine ⟨?_, ?_, ?_, ?_, ?_⟩ <;> omega

/-- On two different objects `lhs += rhs` writes the left object only, and
writes it with the componentwise sums of the two objects as they were. -/
theorem opAddAssignRef_distinct (σ : Nat → TimeSpan) (lhs rhs : Nat) (h : lhs ≠ rhs) :
    opAddAssignRef σ lhs rhs lhs = opAddAssign (σ lhs) (σ rhs) ∧
    ∀ r, r ≠ lhs → opAddAssignRef σ lhs rhs r = σ r := by
  have h2 : ¬ rhs = lhs := fun e => h e.symm
  constructor
  · simp [opAddAssignRef, setObj, opAddAssign, h2]
  · intro r hr
    simp [opAddAssignRef, setObj, hr]

/-- On two different objects `lhs -= rhs` writes the left object only, and
writes it with the componentwise differences of the two objects as they were. -/
theorem opSubAssignRef_distinct (σ : Nat → TimeSpan) (lhs rhs : Nat) (h : lhs ≠ rhs) :
    opSubAssignRef σ lhs rhs lhs = opSubAssign (σ lhs) (σ rhs) ∧
    ∀ r, r ≠ lhs → opSubAssignRef σ lhs rhs r = σ r := by
  have h2 : ¬ rhs = lhs := fun e => h e.symm
  constructor
  · simp [opSubAssignRef, setObj, opSubAssign, h2]
  · intro r hr
    simp [opSubAssignRef, setObj, hr]

/-- C29 (counterexample): let `a` and `b` be the same object, holding
`TimeSpan(1,2,3,4,5)`.  After `a += b` the object holds (2,4,6,8,10), so the
right operand has changed, and the following `a -= b` leaves (0,0,0,0,0), not
the components `a` had. -/
theorem C29_compound_assignment_aliased :
    opAddAssignRef (fun _ => ctor5 1 2 3 4 5) 0 0 0 = ctor5 2 4 6 8 10 ∧
    opAddAssignRef (fun _ => ctor5 1 2 3 4 5) 0 0 0 ≠ ctor5 1 2 3 4 5 ∧
    opSubAssignRef (opAddAssignRef (fun _ => ctor5 1 2 3 4 5) 0 0) 0 0 0
      = ctor5 0 0 0 0 0 ∧
    opSubAssignRef (opAddAssignRef (fun _ => ctor5 1 2 3 4 5) 0 0) 0 0 0
      ≠ ctor5 1 2 3 4 5 := by
  decide

/-- C29 (amended): for all TimeSpans `a` and `b` that are two different
objects, `a` holding `time_t` components: after `a += b` each of the five
components of `a` is the `time_t` sum of its old value and the corresponding
component of `b`, `a.Ticks()` is the old `a.Ticks()` plus `b.Ticks()` in 64-bit
wrapping arithmetic, and `b` is unchanged; a following `a -= b` restores all
five components of `a` and again leaves `b` unchanged. -/
theorem C29_compound_assignment_exact (σ : Nat → TimeSpan) (a b : Nat) (hab : a ≠ b)
    (ha : IsTimeT (σ a).m_days ∧ IsTimeT (σ a).m_hours ∧ IsTimeT (σ a).m_minutes ∧
      IsTimeT (σ a).m_seconds ∧ IsTimeT (σ a).m_milliseconds) :
    ((opAddAssignRef σ a b a).Days = wrap64 ((σ a).Days + (σ b).Days) ∧
     (opAddAssignRef σ a b a).Hours = wrap64 ((σ a).Hours + (σ b).Hours) ∧
     (opAddAssignRef σ a b a).Minutes = wrap64 ((σ a).Minutes + (σ b).Minutes) ∧
     (opAddAssignRef σ a b a).Seconds = wrap64 ((σ a).Seconds + (σ b).Seconds) ∧
     (opAddAssignRef σ a b a).Milliseconds
        = wrap64 ((σ a).Milliseconds + (σ b).Milliseconds)) ∧
    (opAddAssignRef σ a b a).Ticks = wrap64 ((σ a).Ticks + (σ b).Ticks) ∧
    opAddAssignRef σ a b b = σ b ∧
    opSubAssignRef (opAddAssignRef σ a b) a b a = σ a ∧
    opSubAssignRef (opAddAssignRef σ a b) a b b = σ b := by
  obtain ⟨hadd, hrest⟩ := opAddAssignRef_distinct σ a b hab
  obtain ⟨hsub, hrest2⟩ := opSubAssignRef_distinct (opAddAssignRef σ a b) a b hab
  obtain ⟨hc, ht, hr⟩ := opAddAssign_exact (σ a) (σ b) ha
  have hb : opAddAssignRef σ a b b = σ b := hrest b (fun e => hab e.symm)
  refine ⟨?_, ?_, hb, ?_, ?_⟩
  · rw [hadd]; exact hc
  · rw [hadd]; exact ht
  · rw [hsub, hadd, hb]; exact hr
  · rw [hrest2 b (fun e => hab e.symm)]; exact hb

/-- C29 (amended) for the two objects `a = TimeSpan(1,2,3,4,5)`, at reference 0,
and `b = TimeSpan(10,20,30,40,50)`, at reference 1. -/
theorem C29_compound_assignment_exact_witness :
    ((0 : Nat) ≠ 1) ∧
    opAddAssignRef (fun i => if i = 0 then ctor5 1 2 3 4 5 else ctor5 10 20 30 40 50) 0 1 1
      = ctor5 10 20 30 40 50 ∧
    opSubAssignRef
      (opAddAssignRef (fun i => if i = 0 then ctor5 1 2 3 4 5 else ctor5 10 20 30 40 50) 0 1)
      0 1 0 = ctor5 1 2 3 4 5 ∧
    opAddAssignRef (fun i => if i = 0 then ctor5 1 2 3 4 5 else ctor5 10 20 30 40 50) 0 1 0
      = ctor5 11 22 33 44 55 :=
  ⟨by decide,
   (C29_compound_assignment_exact
     (fun i => if i = 0 then ctor5 1 2 3 4 5 else ctor5 10 20 30 40 50) 0 1
     (by decide) (by decide)).2.2.1,
   (C29_compound_assignment_exact
     (fun i => if i = 0 then ctor5 1 2 3 4 5 else ctor5 10 20 30 40 50) 0 1
     (by decide) (by decide)).2.2.2.1,
   by decide⟩

/-- C30: the raw-tick constructor preserves order.  For all tick counts
`t1 ≤ t2` with `|t1|, |t2| ≤ 2^60`, `TimeSpan(t1).Ticks() ≤ TimeSpan(t2).Ticks()`,
that is `TimeSpan(t1) <= TimeSpan(t2)`. -/
theorem C30_ofTicks_monotone (t1 t2 : Int) (h12 : t1 ≤ t2)
    (h1 : -1152921504606846976 ≤ t1 ∧ t1 ≤ 1152921504606846976)
    (h2 : -1152921504606846976 ≤ t2 ∧ t2 ≤ 1152921504606846976) :
    (ofTicks t1).Ticks ≤ (ofTicks t2).Ticks ∧ opLe (ofTicks t1) (ofTicks t2) = true := by
  have key : (ofTicks t1).Ticks ≤ (ofTicks t2).Ticks := by
    rw [ofTicks_Ticks_of_small t1 h1, ofTicks_Ticks_of_small t2 h2]
    have m1 := trunc_div_mono 864000000000 t1 t2 (by decide) h12
    have m2 := trunc_div_mono 36000000000 t1 t2 (by decide) h12
    have m3 := trunc_div_mono 600000000 t1 t2 (by decide) h12
    have m4 := trunc_div_mono 10000000 t1 t2 (by decide) h12
    have m5 := trunc_div_mono 10000 t1 t2 (by decide) h12
    generalize (if 0 ≤ t1 then t1 / 864000000000 else -((-t1) / 864000000000)) = a1 at m1 ⊢
    generalize (if 0 ≤ t2 then t2 / 864000000000 else -((-t2) / 864000000000)) = b1 at m1 ⊢
    generalize (if 0 ≤ t1 then t1 / 36000000000 else -((-t1) / 36000000000)) = a2 at m2 ⊢
    generalize (if 0 ≤ t2 then t2 / 36000000000 else -((-t2) / 36000000000)) = b2 at m2 ⊢
    generalize (if 0 ≤ t1 then t1 / 600000000 else -((-t1) / 600000000)) = a3 at m3 ⊢
    generalize (if 0 ≤ t2 then t2 / 600000000 else -((-t2) / 600000000)) = b3 at m3 ⊢
    generalize (if 0 ≤ t1 then t1 / 10000000 else -((-t1) / 10000000)) = a4 at m4 ⊢
    generalize (if 0 ≤ t2 then t2 / 10000000 else -((-t2) / 10000000)) = b4 at m4 ⊢
    generalize (if 0 ≤ t1 then t1 / 10000 else -((-t1) / 10000)) = a5 at m5 ⊢
    generalize (if 0 ≤ t2 then t2 / 10000 else -((-t2) / 10000)) = b5 at m5 ⊢
    omega
  exact ⟨key, by simp [opLe, key]⟩

/-- C30 for `t1 = -900000000000` and `t2 = 10000000`. -/
theorem C30_ofTicks_monotone_witness :
    ((-900000000000 : Int) ≤ 10000000) ∧
    opLe (ofTicks (-900000000000)) (ofTicks 10000000) = true :=
  ⟨by decide,
   (C30_ofTicks_monotone (-900000000000) 10000000 (by decide) (by decide)
     (by decide)).2⟩

/-- Adding zero months keeps the month and the year, and clamps the day to what
`DaysInMonth` returns for them. -/
theorem AddMonthsArgs_zero (H : Host) (dt : DateTime) (m y n : Int)
    (hm : DateTime.Month H dt = m) (hm1 : 1 ≤ m) (hm12 : m ≤ 12)
    (hy : DateTime.Year H dt = y) (hn : DateTime.DaysInMonth m y = some n) :
    DateTime.AddMonthsArgs H dt 0 = some
      { year := y, month := m,
        day := if DateTime.Day H dt > n then n else DateTime.Day H dt,
        hour := DateTime.Hour H dt, minute := DateTime.Minute H dt,
        second := DateTime.Second H dt, millisecond := 0, kind := dt.Kind } := by
  have hyr : IsTimeT y := by rw [← hy]; exact Year_isTimeT H dt
  have hs : add64 m 0 = m := by
    unfold add64; rw [add_zero]; apply wrap64_of_isTimeT; unfold IsTimeT; omega
  have hmod : mod64 m 12 = m % 12 := by
    unfold mod64
    rw [tmod_of_nonneg (by omega) (by omega)]
    apply wrap64_of_isTimeT; unfold IsTimeT; omega
  have hdiv : div64 m 12 = m / 12 := by
    rw [div64_of_isTimeT (by unfold IsTimeT; omega) (by omega),
      Int.tdiv_eq_ediv (by omega) (by omega)]
  have hy0 : add64 y 0 = y := by
    unfold add64; rw [add_zero]; exact wrap64_of_isTimeT hyr
  rw [AddMonthsArgs_eq, hm, hy, hs, hmod, hdiv]
  by_cases h0 : m % 12 = 0
  · have hm' : m = 12 := by omega
    subst hm'
    have e : add64 y (sub64 (12 / 12) 1) = y := by
      have : sub64 ((12 : Int) / 12) 1 = 0 := by decide
      rw [this, hy0]
    simp only [h0, if_true, e, hn, Option.map, DateTime.Kind]
  · have hm' : m % 12 = m := by omega
    have hq : m / 12 = 0 := by omega
    have hm0 : ¬ m = 0 := by omega
    rw [hm', hq]
    simp only [hm0, if_false, hy0, hn, Option.map, DateTime.Kind]

/-- C31 (evaluation at the failing input): on the reference host at offset 0,
the instant `DateTime(2024,2,29,10,20,30,0)` reads as 2024-02-29, a valid date,
and `AddMonths(0)` builds its result from 2024-02-28: the day is clamped to
`DaysInMonth(2, 2024)` = 28.  The result reads back as 2024-02-28.  For
2023-12-31 the same call keeps year, month and day. -/
theorem C31_AddMonths_zero_feb29 :
    (DateTime.Year (posixHost 0)
        (DateTime.ctorCivil (posixHost 0) 2024 2 29 10 20 30 0 DateTimeKind.UTC) = 2024 ∧
     DateTime.Month (posixHost 0)
        (DateTime.ctorCivil (posixHost 0) 2024 2 29 10 20 30 0 DateTimeKind.UTC) = 2 ∧
     DateTime.Day (posixHost 0)
        (DateTime.ctorCivil (posixHost 0) 2024 2 29 10 20 30 0 DateTimeKind.UTC) = 29) ∧
    DateTime.DaysInMonth 2 2024 = some 28 ∧
    DateTime.AddMonthsArgs (posixHost 0)
      (DateTime.ctorCivil (posixHost 0) 2024 2 29 10 20 30 0 DateTimeKind.UTC) 0
      = some { year := 2024, month := 2, day := 28, hour := 10, minute := 20,
               second := 30, millisecond := 0, kind := DateTimeKind.UTC } ∧
    (DateTime.AddMonths (posixHost 0)
      (DateTime.ctorCivil (posixHost 0) 2024 2 29 10 20 30 0 DateTimeKind.UTC) 0).map
        (fun r => (DateTime.Year (posixHost 0) r, DateTime.Month (posixHost 0) r,
          DateTime.Day (posixHost 0) r))
      = some (2024, 2, 28) ∧
    DateTime.AddMonthsArgs (posixHost 0)
      (DateTime.ctorCivil (posixHost 0) 2023 12 31 10 20 30 0 DateTimeKind.UTC) 0
      = some { year := 2023, month := 12, day := 31, hour := 10, minute := 20,
               second := 30, millisecond := 0, kind := DateTimeKind.UTC } := by
  decide

end CoreTime
